import Mathlib

/-!
Shallow embedding of the order-state / data round-trip engine of
`src/services/dataService.ts` (production-tracking tool).

Conventions of the embedding:
* JS numbers are modelled as `JsNum`, rational values kept in unreduced
  fraction form (numerator over positive denominator).  All operations are
  plain integer arithmetic, so every function of the embedding is
  computable by kernel reduction (`decide` / `rfl`).  JS `===` on numbers
  is value equality of the fractions (`jsNumEq`), not representation
  equality.
* JS `Date` values are modelled as `ℤ` (milliseconds since the epoch,
  `getTime()`); nullable dates are `Option ℤ`.
* Local time is abstracted to UTC: "today at midnight" is the timestamp
  truncated to a multiple of 86400000 ms.
* Fallible operations return `Except String _`.
-/

/-- `OrderState` enumeration (from `types.ts`, consumed by `dataService.ts`). -/
inductive OrderState where
  | OPEN
  | IN_PRODUCTION
  | LATE
  | COMPLETED
  deriving DecidableEq

/-- `SectorState` enumeration (from `types.ts`, consumed by `dataService.ts`). -/
inductive SectorState where
  | NOT_STARTED
  | IN_PROGRESS
  | COMPLETED
  deriving DecidableEq

-- ---------------------------------------------------------------------------
-- JS numbers
-- ---------------------------------------------------------------------------

/-- A JS number: a rational value in unreduced fraction form.  Mathlib's `ℚ`
normalizes through operations the kernel cannot reduce, so this
representation keeps the whole embedding computable.  Every constructor in
the embedding produces a positive denominator. -/
structure JsNum where
  num : ℤ
  den : ℤ
  deriving DecidableEq

instance (n : ℕ) : OfNat JsNum n := ⟨⟨(n : ℤ), 1⟩⟩

def JsNum.ofN (n : ℕ) : JsNum := ⟨(n : ℤ), 1⟩

def JsNum.ofInt (n : ℤ) : JsNum := ⟨n, 1⟩

def JsNum.add (a b : JsNum) : JsNum := ⟨a.num * b.den + b.num * a.den, a.den * b.den⟩

def JsNum.mul (a b : JsNum) : JsNum := ⟨a.num * b.num, a.den * b.den⟩

/-- Division; keeps the denominator nonnegative.  Division by zero would be
JS `Infinity`; every division site in the source is guarded, so this case
is never exercised. -/
def JsNum.div (a b : JsNum) : JsNum :=
  if 0 ≤ b.num then ⟨a.num * b.den, a.den * b.num⟩ else ⟨-(a.num * b.den), a.den * (-b.num)⟩

instance : Add JsNum := ⟨JsNum.add⟩
instance : Mul JsNum := ⟨JsNum.mul⟩
instance : Div JsNum := ⟨JsNum.div⟩

/-- `10^e` for an integer exponent. -/
def pow10 (e : ℤ) : JsNum :=
  if 0 ≤ e then ⟨(10 : ℤ) ^ e.toNat, 1⟩ else ⟨1, (10 : ℤ) ^ (-e).toNat⟩

/-- JS `===` on numbers: value equality of the fractions. -/
def jsNumEq (a b : JsNum) : Prop := a.num * b.den = b.num * a.den

instance (a b : JsNum) : Decidable (jsNumEq a b) :=
  inferInstanceAs (Decidable (a.num * b.den = b.num * a.den))

/-- JS `a === b` on numbers, as a Bool. -/
def jqEqB (a b : JsNum) : Bool := a.num * b.den == b.num * a.den

/-- JS `a < b` on numbers, as a Bool (denominators positive by construction). -/
def jqLtB (a b : JsNum) : Bool := decide (a.num * b.den < b.num * a.den)

/-- JS `a <= b` on numbers, as a Bool. -/
def jqLeB (a b : JsNum) : Bool := decide (a.num * b.den ≤ b.num * a.den)

theorem jqEqB_eq_true {a b : JsNum} : jqEqB a b = true ↔ jsNumEq a b := by
  simp [jqEqB, jsNumEq]

-- ---------------------------------------------------------------------------
-- Dynamic JSON values
-- ---------------------------------------------------------------------------

/-- A JSON-style dynamic value as it lives in a JS object graph.
`dstr t` models an ISO-8601 date-time string denoting the instant `t`
(milliseconds); `date t` models a JS `Date` object (present before
serialization / after hydration, never inside serialized JSON text). -/
inductive Json where
  | null
  | bool (b : Bool)
  | num (q : JsNum)
  | str (s : String)
  | dstr (t : ℤ)
  | date (t : ℤ)
  | obj (fields : List (String × Json))

mutual

/-- `JSON.stringify` on values of an object graph, modelled structurally:
a `Date` object serializes to its ISO string (`dstr`), everything else
keeps its shape.  (`jsonSerFields` handles the nested field lists.) -/
def jsonSer : Json → Json
  | .date t => .dstr t
  | .obj fs => .obj (jsonSerFields fs)
  | j => j

def jsonSerFields : List (String × Json) → List (String × Json)
  | [] => []
  | (k, v) :: rest => (k, jsonSer v) :: jsonSerFields rest

end

/-- JS truthiness of a dynamic value. `dstr` is a non-empty string, hence
truthy; any object or `Date` is truthy. -/
def jsTruthy : Json → Bool
  | .null => false
  | .bool b => b
  | .num q => !(jqEqB q 0)
  | .str s => !(s == "")
  | .dstr _ => true
  | .date _ => true
  | .obj _ => true

/-- `new Date(v)` applied to a JSON value that was just parsed
(used by the sector-predicted-dates hydration loops).  An ISO date string
yields the corresponding instant, a number is truncated to integral
milliseconds, and an existing `Date` is copied.  Other inputs would give
an `Invalid Date`, which the claims never exercise; it is modelled as
`null`. -/
def jsNewDateVal : Json → Json
  | .dstr t => .date t
  | .date t => .date t
  | .num q => .date (Int.tdiv q.num q.den)
  | _ => .null

/-- The hydration loop over `sectorPredictedDates`
(`Object.keys(parsed).forEach(k => { if (parsed[k]) parsed[k] = new Date(parsed[k]) })`).
On a non-object JSON value there are no own enumerable keys to rewrite. -/
def hydratePredVals : Json → Json
  | .obj fs => .obj (fs.map (fun kv => (kv.1, if jsTruthy kv.2 then jsNewDateVal kv.2 else kv.2)))
  | j => j

/-- `x || {}` on a sector-mapping value (the fallback applied at every
`JSON.stringify(o.sectorX || {})` export site): a falsy value serializes as
the empty object. -/
def jsonOrEmpty (j : Json) : Json :=
  if jsTruthy j then j else .obj []

/-- A JSON value that is an object all of whose field values are `Date`
objects (the canonical in-memory shape of `sectorPredictedDates`). -/
def isDateObj : Json → Bool
  | .obj fs => fs.all (fun kv => match kv.2 with | .date _ => true | _ => false)
  | _ => false

/-- Property lookup `j?.[k]` on a JSON object. -/
def jsonGet (j : Json) (k : String) : Option Json :=
  match j with
  | .obj fs => (fs.find? (fun kv => kv.1 == k)).map (·.2)
  | _ => none

-- ---------------------------------------------------------------------------
-- Spreadsheet cells
-- ---------------------------------------------------------------------------

/-- One spreadsheet cell value.  `jsonStr j` models a text cell holding the
JSON serialization of `j`; `dateStr d` models a text cell holding the shared
date formatter's rendering of day number `d` (days since the epoch). -/
inductive CellVal where
  | str (s : String)
  | num (q : JsNum)
  | jsonStr (j : Json)
  | dateStr (d : ℤ)

/-- A cell: absent (`none`, JS `undefined`) or holding a value. -/
abbrev Cell := Option CellVal

/-- JS truthiness of a cell (`row['X']` used as a condition). -/
def cellTruthy : Cell → Bool
  | none => false
  | some (.str s) => !(s == "")
  | some (.num q) => !(jqEqB q 0)
  | some (.jsonStr _) => true
  | some (.dateStr _) => true

/-- JavaScript `String(value)` on a cell.  The program only stringifies
text cells (document numbers, client fields); numeric and structured cells
are rendered with a stand-in encoding, which no claim exercises. -/
def jsStringOfCell : Cell → String
  | none => "undefined"
  | some (.str s) => s
  | some (.num q) => toString q.num
  | some (.jsonStr _) => ""
  | some (.dateStr d) => toString d

/-- The internal `Order` record (fields as read/written by `dataService.ts`;
the three sector mappings are dynamic JSON objects at runtime). -/
structure Order where
  id : String
  docNr : String
  clientCode : String
  clientName : String
  comercial : String
  issueDate : Option ℤ
  requestedDate : Option ℤ
  itemNr : JsNum
  po : String
  articleCode : String
  reference : String
  colorCode : String
  colorDesc : String
  size : String
  family : String
  sizeDesc : String
  ean : String
  qtyRequested : JsNum
  dataTec : Option ℤ
  felpoCruQty : JsNum
  felpoCruDate : Option ℤ
  tinturariaQty : JsNum
  tinturariaDate : Option ℤ
  confRoupoesQty : JsNum
  confFelposQty : JsNum
  confDate : Option ℤ
  embAcabQty : JsNum
  armExpDate : Option ℤ
  stockCxQty : JsNum
  dataEnt : Option ℤ
  qtyBilled : JsNum
  qtyOpen : JsNum
  sectorObservations : Json
  sectorPredictedDates : Json
  sectorStopReasons : Json
  priority : ℤ
  isManual : Bool
  dataEspecial : Option ℤ
  dataPrinter : Option ℤ
  dataDebuxo : Option ℤ
  dataAmostras : Option ℤ
  dataBordados : Option ℤ
  isArchived : Bool
  archivedAt : Option ℤ
  archivedBy : Option String

/-- Milliseconds per day. -/
def msPerDay : ℤ := 86400000

/-- Day number (days since the epoch) of a timestamp. -/
def dayOf (t : ℤ) : ℤ := t.fdiv msPerDay

/-- `setHours(0,0,0,0)`: truncate a timestamp to midnight. -/
def startOfDay (t : ℤ) : ℤ := msPerDay * dayOf t

/-- Truncate an optional date to day precision (the precision of the shared
date formatter). -/
def truncDayOpt : Option ℤ → Option ℤ
  | none => none
  | some t => some (startOfDay t)

/-- `d && d < now` on a nullable date field. -/
def datePast (now : ℤ) : Option ℤ → Bool
  | none => false
  | some d => decide (d < now)

-- ---------------------------------------------------------------------------
-- parseNumber (dataService.ts lines 268-307)
-- ---------------------------------------------------------------------------

/-- Numeric value of a digit string (most significant first). -/
def digitsValNat (cs : List Char) : ℕ :=
  cs.foldl (fun a c => 10 * a + (c.toNat - 48)) 0

/-- Value of a fractional digit string: `[d1, d2, ...] ↦ 0.d1d2...`. -/
def fracVal (cs : List Char) : JsNum :=
  cs.foldr (fun c a => (JsNum.ofN (c.toNat - 48) + a) / JsNum.ofN 10) 0

/-- Leading optional sign of JS float syntax: returns the sign and the
remaining characters. -/
def splitSign (cs : List Char) : ℤ × List Char :=
  match cs with
  | c :: r => if c = '-' then (-1, r) else if c = '+' then (1, r) else (1, c :: r)
  | [] => (1, [])

/-- Optional fractional part of JS float syntax: on `.rest` returns the digit
run after the dot and what follows it; otherwise no fractional digits. -/
def splitFrac (cs : List Char) : List Char × List Char :=
  match cs with
  | c :: r => if c = '.' then (r.takeWhile Char.isDigit, r.dropWhile Char.isDigit) else ([], c :: r)
  | [] => ([], [])

/-- Exponent part after `e`/`E` in JS float syntax; an absent or empty
digit run contributes exponent 0 (`parseFloat` stops at the valid prefix). -/
def expVal (cs : List Char) : ℤ :=
  let sr := splitSign cs
  let ds := sr.2.takeWhile Char.isDigit
  if ds.isEmpty then 0 else sr.1 * (digitsValNat ds : ℤ)

/-- JavaScript `parseFloat`: skip leading whitespace, optional sign, then
either the `Infinity` literal or the longest prefix of
`digits [. digits] [e[sign]digits]`; `none` models `NaN` (no digits at all
in the mantissa). Trailing garbage is ignored.  A signed infinity is
encoded as a fraction with denominator 0 (`⟨±1, 0⟩`), which orders
correctly against every finite value under the cross-multiplication
comparisons. -/
def jsParseFloat (cs0 : List Char) : Option JsNum :=
  let sgn := splitSign (cs0.dropWhile Char.isWhitespace)
  if ['I', 'n', 'f', 'i', 'n', 'i', 't', 'y'].isPrefixOf sgn.2 then some ⟨sgn.1, 0⟩
  else
  let intPart := sgn.2.takeWhile Char.isDigit
  let fr := splitFrac (sgn.2.dropWhile Char.isDigit)
  if intPart.isEmpty && fr.1.isEmpty then none
  else
    let mant : JsNum := JsNum.ofN (digitsValNat intPart) + fracVal fr.1
    let ex : ℤ :=
      match fr.2 with
      | 'e' :: r => expVal r
      | 'E' :: r => expVal r
      | _ => 0
    some (JsNum.ofInt sgn.1 * mant * pow10 ex)

/-- JS `str.replace(a, b)` with single-character string pattern: replaces the
first occurrence only. -/
def replaceFirst (a b : Char) : List Char → List Char
  | [] => []
  | c :: r => if c = a then b :: r else c :: replaceFirst a b r

/-- JS `str.trim()` on a character list. -/
def trimChars (cs : List Char) : List Char :=
  ((cs.dropWhile Char.isWhitespace).reverse.dropWhile Char.isWhitespace).reverse

/-- The string-parsing policy of `parseNumber` on a (trimmed, non-empty)
character list: EU-grouped number, comma-decimal, dot-as-thousands
heuristic (exactly 3 characters after the last dot), or plain float. -/
def parseNumStr (cs : List Char) : JsNum :=
  if cs.contains ',' && cs.contains '.' then
    (jsParseFloat (replaceFirst ',' '.' (cs.filter (· ≠ '.')))).getD 0
  else if cs.contains ',' then
    (jsParseFloat (replaceFirst ',' '.' cs)).getD 0
  else if cs.contains '.' && (decide ((cs.splitOn '.').length > 1) && decide (((cs.splitOn '.').getLastD []).length = 3)) then
    (jsParseFloat (cs.filter (· ≠ '.'))).getD 0
  else
    (jsParseFloat cs).getD 0

/-- `parseNumber` (dataService.ts lines 268-307): locale-aware numeric cell
parsing.  Native numbers pass through; falsy input gives 0; strings are
trimmed and follow the ordered comma/dot policy of `parseNumStr`; any
non-numeric parse degrades to 0. -/
def parseNumber (val : Cell) : JsNum :=
  match val with
  | some (.num q) => q
  | v =>
    if cellTruthy v = false then 0
    else
      let cs := trimChars (jsStringOfCell v).toList
      if cs.isEmpty then 0
      else parseNumStr cs

-- ---------------------------------------------------------------------------
-- getOrderState / getSectorState (dataService.ts lines 309-345)
-- ---------------------------------------------------------------------------

/-- The `isCompleted` condition of `getOrderState` (dataService.ts line 313):
`qtyOpen === 0 || (stockCxQty >= qtyRequested && qtyRequested > 0)`. -/
def isCompletedB (o : Order) : Bool :=
  jqEqB o.qtyOpen 0 || (jqLeB o.qtyRequested o.stockCxQty && jqLtB 0 o.qtyRequested)

/-- `getOrderState` (dataService.ts lines 309-329).  `nowRaw` is the wall
clock; the function truncates it to midnight, then walks the ordered
decision list: completed, five lateness checks, in-production, open. -/
def getOrderState (nowRaw : ℤ) (o : Order) : OrderState :=
  let now := startOfDay nowRaw
  if isCompletedB o then
    .COMPLETED
  else if datePast now o.dataTec && jqLtB o.felpoCruQty o.qtyRequested then
    .LATE
  else if datePast now o.felpoCruDate && jqLtB o.felpoCruQty o.qtyRequested then
    .LATE
  else if datePast now o.tinturariaDate && jqLtB (o.confRoupoesQty + o.confFelposQty) o.qtyRequested then
    .LATE
  else if datePast now o.confDate && jqLtB o.embAcabQty o.qtyRequested then
    .LATE
  else if datePast now o.requestedDate && jqLtB 0 o.qtyOpen then
    .LATE
  else if jqLtB 0 o.felpoCruQty || jqLtB 0 o.tinturariaQty || jqLtB 0 (o.confRoupoesQty + o.confFelposQty) || jqLtB 0 o.embAcabQty then
    .IN_PRODUCTION
  else
    .OPEN

/-- `getSectorState` (dataService.ts lines 331-345).  An unrecognized sector
id leaves the switch's `qty` at its initial 0. -/
def getSectorState (o : Order) (sectorId : String) : SectorState :=
  let qty : JsNum :=
    if sectorId = "tecelagem" then o.felpoCruQty
    else if sectorId = "felpo_cru" then o.felpoCruQty
    else if sectorId = "tinturaria" then o.tinturariaQty
    else if sectorId = "confeccao" then o.confRoupoesQty + o.confFelposQty
    else if sectorId = "embalagem" then o.embAcabQty
    else if sectorId = "expedicao" then o.stockCxQty
    else 0
  if jqLtB 0 o.qtyRequested && jqLeB o.qtyRequested qty then .COMPLETED
  else if jqLtB 0 qty then .IN_PROGRESS
  else .NOT_STARTED

-- ---------------------------------------------------------------------------
-- getWeekRange / calculateKPIs (dataService.ts lines 348-411)
-- ---------------------------------------------------------------------------

/-- `getWeekRange` (dataService.ts lines 348-366): Monday 00:00:00.000
through Sunday 23:59:59.999 of the week containing `t`.  JS `getDay()` is
0 for Sunday; the epoch day (1970-01-01) was a Thursday, hence the `+ 4`. -/
def getWeekRange (t : ℤ) : ℤ × ℤ :=
  let current := startOfDay t
  let day := (dayOf current + 4).emod 7
  let diffDays : ℤ := if day = 0 then -6 else 1 - day
  let startOfWeek := current + msPerDay * diffDays
  (startOfWeek, startOfWeek + 7 * msPerDay - 1)

/-- `DashboardKPIs` (from `types.ts`, as populated by `calculateKPIs`). -/
structure DashboardKPIs where
  totalActiveDocs : ℕ
  totalLate : ℕ
  deliveriesThisWeek : ℕ
  fulfillmentRateWeek : JsNum
  totalInProduction : ℕ
  billedVsOpen : JsNum × JsNum
  deriving DecidableEq

/-- `calculateKPIs` (dataService.ts lines 368-411), parameterized by the
wall clock `now`. -/
def calculateKPIs (now : ℤ) (orders : List Order) : DashboardKPIs :=
  let wr := getWeekRange now
  let activeOrders := orders.filter (fun o => jqLtB 0 o.qtyOpen)
  let uniqueActiveDocs := (activeOrders.map (·.docNr)).dedup
  let late := orders.filter (fun o => getOrderState now o == .LATE)
  let ordersThisWeek := orders.filter (fun o =>
    match o.requestedDate <|> o.armExpDate with
    | some d => decide (d ≥ wr.1 ∧ d ≤ wr.2)
    | none => false)
  let deliveries := ordersThisWeek.length
  let completedThisWeek := (ordersThisWeek.filter (fun o =>
    getOrderState now o == .COMPLETED
    || getSectorState o "expedicao" == .COMPLETED
    || getSectorState o "expedicao" == .IN_PROGRESS)).length
  let rate : JsNum :=
    if deliveries > 0 then (JsNum.ofN completedThisWeek / JsNum.ofN deliveries) * JsNum.ofN 100 else 0
  { totalActiveDocs := uniqueActiveDocs.length
    totalLate := late.length
    deliveriesThisWeek := deliveries
    fulfillmentRateWeek := rate
    totalInProduction := activeOrders.length
    billedVsOpen := (orders.foldl (fun acc o => acc + o.qtyBilled) 0,
                     orders.foldl (fun acc o => acc + o.qtyOpen) 0) }

-- ---------------------------------------------------------------------------
-- Supporting lemmas for the numeric parser
-- ---------------------------------------------------------------------------

theorem takeWhile_eq_nil_of_all {p : Char → Bool} {l : List Char}
    (h : ∀ c ∈ l, p c = false) : l.takeWhile p = [] := by
  cases l with
  | nil => rfl
  | cons a r => simp [List.takeWhile_cons, h a (List.mem_cons_self a r)]

theorem dropWhile_eq_self_of_all {p : Char → Bool} {l : List Char}
    (h : ∀ c ∈ l, p c = false) : l.dropWhile p = l := by
  cases l with
  | nil => rfl
  | cons a r => simp [List.dropWhile_cons, h a (List.mem_cons_self a r)]

theorem mem_of_mem_dropWhile {p : Char → Bool} :
    ∀ {l : List Char} {c : Char}, c ∈ l.dropWhile p → c ∈ l := by
  intro l
  induction l with
  | nil => intro c h; exact h
  | cons a r ih =>
    intro c h
    by_cases hp : p a = true
    · rw [List.dropWhile_cons, if_pos hp] at h
      exact List.mem_cons_of_mem a (ih h)
    · rw [List.dropWhile_cons, if_neg hp] at h
      exact h

theorem mem_of_mem_trimChars {l : List Char} {c : Char} (h : c ∈ trimChars l) : c ∈ l := by
  unfold trimChars at h
  rw [List.mem_reverse] at h
  have h1 := mem_of_mem_dropWhile h
  rw [List.mem_reverse] at h1
  exact mem_of_mem_dropWhile h1

theorem mem_of_mem_splitSign {cs : List Char} {c : Char}
    (h : c ∈ (splitSign cs).2) : c ∈ cs := by
  cases cs with
  | nil => simp [splitSign] at h
  | cons a r =>
    simp only [splitSign] at h
    by_cases h1 : a = '-'
    · rw [if_pos h1] at h
      exact List.mem_cons_of_mem _ h
    · rw [if_neg h1] at h
      by_cases h2 : a = '+'
      · rw [if_pos h2] at h
        exact List.mem_cons_of_mem _ h
      · rw [if_neg h2] at h
        exact h

theorem splitFrac_fst_nil {cs : List Char} (h : ∀ c ∈ cs, c.isDigit = false) :
    (splitFrac cs).1 = [] := by
  cases cs with
  | nil => rfl
  | cons a r =>
    simp only [splitFrac]
    by_cases h1 : a = '.'
    · rw [if_pos h1]
      exact takeWhile_eq_nil_of_all (fun c hc => h c (List.mem_cons_of_mem _ hc))
    · rw [if_neg h1]

theorem head_mem_of_isPrefixOf {p : Char} {ps l : List Char}
    (h : (p :: ps).isPrefixOf l = true) : p ∈ l := by
  cases l with
  | nil => simp [List.isPrefixOf] at h
  | cons a r =>
    simp [List.isPrefixOf] at h
    rw [h.1]
    exact List.mem_cons_self a r

theorem mem_replaceFirst {c a b : Char} :
    ∀ {l : List Char}, c ∈ replaceFirst a b l → c = b ∨ c ∈ l := by
  intro l
  induction l with
  | nil => intro h; exact Or.inr h
  | cons x r ih =>
    intro h
    unfold replaceFirst at h
    by_cases hx : x = a
    · rw [if_pos hx] at h
      rcases List.mem_cons.mp h with h | h
      · exact Or.inl h
      · exact Or.inr (List.mem_cons_of_mem _ h)
    · rw [if_neg hx] at h
      rcases List.mem_cons.mp h with h | h
      · exact Or.inr (by simp [h])
      · rcases ih h with h | h
        · exact Or.inl h
        · exact Or.inr (List.mem_cons_of_mem _ h)

theorem replaceFirst_noDigit {l : List Char} (h : ∀ c ∈ l, c.isDigit = false) :
    ∀ c ∈ replaceFirst ',' '.' l, c.isDigit = false := by
  induction l with
  | nil => intro c hc; simp [replaceFirst] at hc
  | cons a r ih =>
    intro c hc
    unfold replaceFirst at hc
    by_cases ha : a = ','
    · rw [if_pos ha] at hc
      rcases List.mem_cons.mp hc with hc | hc
      · subst hc; decide
      · exact h c (List.mem_cons_of_mem _ hc)
    · rw [if_neg ha] at hc
      rcases List.mem_cons.mp hc with hc | hc
      · exact h c (by simp [hc])
      · exact ih (fun d hd => h d (List.mem_cons_of_mem _ hd)) c hc

theorem jsParseFloat_noDigit {cs : List Char} (h : ∀ c ∈ cs, c.isDigit = false)
    (hI : 'I' ∉ cs) : jsParseFloat cs = none := by
  have h1 : ∀ c ∈ (splitSign (cs.dropWhile Char.isWhitespace)).2, c.isDigit = false :=
    fun c hc => h c (mem_of_mem_dropWhile (mem_of_mem_splitSign hc))
  have hI1 : 'I' ∉ (splitSign (cs.dropWhile Char.isWhitespace)).2 :=
    fun hm => hI (mem_of_mem_dropWhile (mem_of_mem_splitSign hm))
  have hpre : (['I', 'n', 'f', 'i', 'n', 'i', 't', 'y'].isPrefixOf
      (splitSign (cs.dropWhile Char.isWhitespace)).2) = false := by
    cases hp : (['I', 'n', 'f', 'i', 'n', 'i', 't', 'y'].isPrefixOf
        (splitSign (cs.dropWhile Char.isWhitespace)).2) with
    | false => rfl
    | true => exact absurd (head_mem_of_isPrefixOf hp) hI1
  have hint : (splitSign (cs.dropWhile Char.isWhitespace)).2.takeWhile Char.isDigit = [] :=
    takeWhile_eq_nil_of_all h1
  have hdrop : (splitSign (cs.dropWhile Char.isWhitespace)).2.dropWhile Char.isDigit
      = (splitSign (cs.dropWhile Char.isWhitespace)).2 := dropWhile_eq_self_of_all h1
  have hfr : (splitFrac ((splitSign (cs.dropWhile Char.isWhitespace)).2.dropWhile Char.isDigit)).1 = [] := by
    rw [hdrop]; exact splitFrac_fst_nil h1
  simp [jsParseFloat, hpre, hint, hfr]

theorem parseNumStr_noDigit {cs : List Char} (h : ∀ c ∈ cs, c.isDigit = false)
    (hI : 'I' ∉ cs) : parseNumStr cs = 0 := by
  have hf : ∀ c ∈ cs.filter (· ≠ '.'), c.isDigit = false :=
    fun c hc => h c (List.mem_of_mem_filter hc)
  have hfI : 'I' ∉ cs.filter (· ≠ '.') :=
    fun hm => hI (List.mem_of_mem_filter hm)
  have hrI1 : 'I' ∉ replaceFirst ',' '.' (cs.filter (· ≠ '.')) := by
    intro hm
    rcases mem_replaceFirst hm with he | hm2
    · exact absurd he (by decide)
    · exact hfI hm2
  have hrI2 : 'I' ∉ replaceFirst ',' '.' cs := by
    intro hm
    rcases mem_replaceFirst hm with he | hm2
    · exact absurd he (by decide)
    · exact hI hm2
  unfold parseNumStr
  split_ifs with h1 h2 h3
  · rw [jsParseFloat_noDigit (replaceFirst_noDigit hf) hrI1]; rfl
  · rw [jsParseFloat_noDigit (replaceFirst_noDigit h) hrI2]; rfl
  · rw [jsParseFloat_noDigit hf hfI]; rfl
  · rw [jsParseFloat_noDigit h hI]; rfl

-- ---------------------------------------------------------------------------
-- Sample orders used by concrete scenarios and witnesses
-- ---------------------------------------------------------------------------

/-- A baseline order: requested 100, fully open, no progress, no dates. -/
def sampleOrder : Order :=
  { id := "o-1", docNr := "ENC-1", clientCode := "C1", clientName := "CLI"
    comercial := "COM", issueDate := none, requestedDate := none, itemNr := 1
    po := "", articleCode := "", reference := "", colorCode := "", colorDesc := ""
    size := "", family := "", sizeDesc := "", ean := "", qtyRequested := 100
    dataTec := none, felpoCruQty := 0, felpoCruDate := none, tinturariaQty := 0
    tinturariaDate := none, confRoupoesQty := 0, confFelposQty := 0, confDate := none
    embAcabQty := 0, armExpDate := none, stockCxQty := 0, dataEnt := none
    qtyBilled := 0, qtyOpen := 100, sectorObservations := .obj []
    sectorPredictedDates := .obj [], sectorStopReasons := .obj [], priority := 0
    isManual := false, dataEspecial := none, dataPrinter := none, dataDebuxo := none
    dataAmostras := none, dataBordados := none, isArchived := false
    archivedAt := none, archivedBy := none }

/-- The §8 lateness scenario: requested 100, 40 still open, requested date
one day before today's midnight. -/
def lateScenario (now : ℤ) : Order :=
  { sampleOrder with qtyOpen := 40, requestedDate := some (startOfDay now - msPerDay) }

/-- The §8 confection scenario: 30 + 20 confection output against 50 requested. -/
def scenC6 : Order :=
  { sampleOrder with confRoupoesQty := 30, confFelposQty := 20, qtyRequested := 50 }

-- ---------------------------------------------------------------------------
-- C4
-- ---------------------------------------------------------------------------

/-- C4: an order with `qtyOpen === 0` is COMPLETED regardless of every other
field and the clock; likewise when `qtyRequested > 0` and
`stockCxQty >= qtyRequested`.  Because both facts hold for arbitrary date
and quantity fields, the completion decision precedes any lateness check. -/
theorem getOrderState_completed_first (now : ℤ) (o : Order) :
    (jsNumEq o.qtyOpen 0 → getOrderState now o = .COMPLETED) ∧
    (jqLtB 0 o.qtyRequested = true → jqLeB o.qtyRequested o.stockCxQty = true →
      getOrderState now o = .COMPLETED) := by
  constructor
  · intro h
    have hc : isCompletedB o = true := by
      unfold isCompletedB
      rw [Bool.or_eq_true]
      exact Or.inl (jqEqB_eq_true.mpr h)
    simp [getOrderState, hc]
  · intro h1 h2
    have hc : isCompletedB o = true := by
      unfold isCompletedB
      rw [Bool.or_eq_true, Bool.and_eq_true]
      exact Or.inr ⟨h2, h1⟩
    simp [getOrderState, hc]

theorem getOrderState_completed_first_witness :
    getOrderState 0 { sampleOrder with qtyOpen := 0 } = .COMPLETED ∧
    getOrderState 0 { sampleOrder with stockCxQty := 150 } = .COMPLETED :=
  ⟨(getOrderState_completed_first 0 { sampleOrder with qtyOpen := 0 }).1 (by decide),
   (getOrderState_completed_first 0 { sampleOrder with stockCxQty := 150 }).2
     (by decide) (by decide)⟩

-- ---------------------------------------------------------------------------
-- C5
-- ---------------------------------------------------------------------------

/-- The five lateness disjuncts of `getOrderState`, with "past" meaning
strictly earlier than `today` (today's midnight). -/
def lateConds (today : ℤ) (o : Order) : Bool :=
  (datePast today o.dataTec && jqLtB o.felpoCruQty o.qtyRequested) ||
  (datePast today o.felpoCruDate && jqLtB o.felpoCruQty o.qtyRequested) ||
  (datePast today o.tinturariaDate && jqLtB (o.confRoupoesQty + o.confFelposQty) o.qtyRequested) ||
  (datePast today o.confDate && jqLtB o.embAcabQty o.qtyRequested) ||
  (datePast today o.requestedDate && jqLtB 0 o.qtyOpen)

theorem late_iff_lateConds (now : ℤ) (o : Order) (h : isCompletedB o = false) :
    getOrderState now o = .LATE ↔ lateConds (startOfDay now) o = true := by
  have hno : ¬ (isCompletedB o = true) := by simp [h]
  simp only [getOrderState]
  rw [if_neg hno]
  by_cases h1 : (datePast (startOfDay now) o.dataTec && jqLtB o.felpoCruQty o.qtyRequested) = true
  · rw [if_pos h1]; simp [lateConds, h1]
  · rw [if_neg h1]
    by_cases h2 : (datePast (startOfDay now) o.felpoCruDate && jqLtB o.felpoCruQty o.qtyRequested) = true
    · rw [if_pos h2]; simp [lateConds, h2]
    · rw [if_neg h2]
      by_cases h3 : (datePast (startOfDay now) o.tinturariaDate && jqLtB (o.confRoupoesQty + o.confFelposQty) o.qtyRequested) = true
      · rw [if_pos h3]; simp [lateConds, h3]
      · rw [if_neg h3]
        by_cases h4 : (datePast (startOfDay now) o.confDate && jqLtB o.embAcabQty o.qtyRequested) = true
        · rw [if_pos h4]; simp [lateConds, h4]
        · rw [if_neg h4]
          by_cases h5 : (datePast (startOfDay now) o.requestedDate && jqLtB 0 o.qtyOpen) = true
          · rw [if_pos h5]; simp [lateConds, h5]
          · rw [if_neg h5]
            constructor
            · intro hcon
              exfalso
              revert hcon
              split <;> simp
            · intro hcon
              exfalso
              simp [lateConds, h1, h2, h3, h4, h5] at hcon

/-- C5: for an order not classified COMPLETED, `getOrderState` returns LATE
exactly when one of the five sector due-date conditions of §4.2 holds,
"past" meaning strictly earlier than today at midnight (`startOfDay now`);
and the §8 scenario (requested 100, 40 open, requested date yesterday) is
LATE. -/
theorem getOrderState_late_iff :
    (∀ (now : ℤ) (o : Order), getOrderState now o ≠ .COMPLETED →
      (getOrderState now o = .LATE ↔ lateConds (startOfDay now) o = true)) ∧
    (∀ now : ℤ, getOrderState now (lateScenario now) = .LATE) := by
  have hbridge : ∀ (now : ℤ) (o : Order), getOrderState now o ≠ .COMPLETED →
      isCompletedB o = false := by
    intro now o hne
    cases hc : isCompletedB o with
    | false => rfl
    | true => exact absurd (by simp [getOrderState, hc]) hne
  constructor
  · intro now o hne
    exact late_iff_lateConds now o (hbridge now o hne)
  · intro now
    have hcomp : isCompletedB (lateScenario now) = false := by
      have h0 : isCompletedB (lateScenario now) = isCompletedB (lateScenario 0) := rfl
      rw [h0]
      decide
    have hp : datePast (startOfDay now) (some (startOfDay now - msPerDay)) = true := by
      simp only [datePast, decide_eq_true_eq, msPerDay]
      omega
    have h40 : jqLtB 0 ((40 : JsNum)) = true := by decide
    refine (late_iff_lateConds now (lateScenario now) hcomp).mpr ?_
    simp [lateConds, lateScenario, sampleOrder, hp, h40]

theorem getOrderState_late_iff_witness :
    getOrderState 259200000 (lateScenario 259200000) = .LATE :=
  (getOrderState_late_iff.1 259200000 (lateScenario 259200000) (by decide)).mpr (by decide)

-- ---------------------------------------------------------------------------
-- C6
-- ---------------------------------------------------------------------------

/-- The claim's sector rule: COMPLETED iff requested positive and quantity
meets it, else IN_PROGRESS iff quantity positive, else NOT_STARTED. -/
def sectorRule (o : Order) (qty : JsNum) : SectorState :=
  if jqLtB 0 o.qtyRequested && jqLeB o.qtyRequested qty then .COMPLETED
  else if jqLtB 0 qty then .IN_PROGRESS
  else .NOT_STARTED

/-- C6: `getSectorState` maps each sector id of the closed six-sector set to
its quantity (tecelagem and felpo_cru to `felpoCruQty`, confeccao to the
confection sum, expedicao to `stockCxQty`) and applies the sector rule; the
§8 confeccao scenario (30 + 20 against 50) is COMPLETED. -/
theorem getSectorState_spec (o : Order) :
    getSectorState o "tecelagem" = sectorRule o o.felpoCruQty ∧
    getSectorState o "felpo_cru" = sectorRule o o.felpoCruQty ∧
    getSectorState o "tinturaria" = sectorRule o o.tinturariaQty ∧
    getSectorState o "confeccao" = sectorRule o (o.confRoupoesQty + o.confFelposQty) ∧
    getSectorState o "embalagem" = sectorRule o o.embAcabQty ∧
    getSectorState o "expedicao" = sectorRule o o.stockCxQty ∧
    getSectorState scenC6 "confeccao" = .COMPLETED :=
  ⟨rfl, rfl, rfl, rfl, rfl, rfl, by decide⟩

-- ---------------------------------------------------------------------------
-- C7
-- ---------------------------------------------------------------------------

/-- C7: `parseNumber` follows the ordered string-parsing policy:
`"1.234,56" == 1234.56`, `"1,5" == 1.5`, `"1.500" == 1500` (the
3-digits-after-dot thousands heuristic), `"" ↦ 0`, `undefined ↦ 0`, and
every non-numeric parse degrades to 0 — formalized as: any string with no
digit and no capital I (so neither a number nor JS `parseFloat`'s
`Infinity` literal can be read from it in any branch) parses to 0.  The
`Infinity` literal itself is numeric for `parseFloat` and passes through
(as the zero-denominator encoding `⟨1, 0⟩`).  Number equality is JS `===`
(value equality `jsNumEq`). -/
theorem parseNumber_policy :
    jsNumEq (parseNumber (some (.str "1.234,56"))) ⟨123456, 100⟩ ∧
    jsNumEq (parseNumber (some (.str "1,5"))) ⟨15, 10⟩ ∧
    jsNumEq (parseNumber (some (.str "1.500"))) ⟨1500, 1⟩ ∧
    parseNumber (some (.str "")) = 0 ∧
    parseNumber none = 0 ∧
    parseNumber (some (.str "Infinity")) = ⟨1, 0⟩ ∧
    (∀ s : String, (∀ c ∈ s.toList, c.isDigit = false) → 'I' ∉ s.toList →
      parseNumber (some (.str s)) = 0) := by
  refine ⟨by decide, by decide, by decide, by decide, rfl, by decide, ?_⟩
  intro s h hI
  have ht : ∀ c ∈ trimChars s.toList, c.isDigit = false :=
    fun c hc => h c (mem_of_mem_trimChars hc)
  have htI : 'I' ∉ trimChars s.toList :=
    fun hm => hI (mem_of_mem_trimChars hm)
  show (if cellTruthy (some (.str s)) = false then 0
        else if (trimChars (jsStringOfCell (some (.str s))).toList).isEmpty then (0 : JsNum)
        else parseNumStr (trimChars (jsStringOfCell (some (.str s))).toList)) = 0
  by_cases h0 : cellTruthy (some (.str s)) = false
  · rw [if_pos h0]
  · rw [if_neg h0]
    by_cases he : (trimChars (jsStringOfCell (some (.str s))).toList).isEmpty
    · rw [if_pos he]
    · rw [if_neg he]
      exact parseNumStr_noDigit ht htI

theorem parseNumber_policy_witness :
    parseNumber (some (.str "n/a")) = 0 :=
  parseNumber_policy.2.2.2.2.2.2 "n/a" (by decide) (by decide)

-- ---------------------------------------------------------------------------
-- C8
-- ---------------------------------------------------------------------------

/-- C8: `calculateKPIs` on the empty order list returns zero for every count,
zero sums for billed/open, and fulfillment rate 0 — the division by the
weekly count is guarded, so no division by zero occurs. -/
theorem calculateKPIs_empty (now : ℤ) :
    calculateKPIs now [] =
      { totalActiveDocs := 0, totalLate := 0, deliveriesThisWeek := 0,
        fulfillmentRateWeek := 0, totalInProduction := 0, billedVsOpen := (0, 0) } := rfl

-- ---------------------------------------------------------------------------
-- Spreadsheet worksheet model
-- ---------------------------------------------------------------------------

/-- One worksheet row as read by `sheet_to_json(ws, { header: 'A' })`:
cells addressed by the fixed column letters A..AR of the §6 contract.
A cell that JS would not materialize (a `null` written on export) is
`none`. -/
structure Row where
  A : Cell := none
  B : Cell := none
  C : Cell := none
  D : Cell := none
  E : Cell := none
  F : Cell := none
  G : Cell := none
  H : Cell := none
  I : Cell := none
  J : Cell := none
  K : Cell := none
  L : Cell := none
  M : Cell := none
  N : Cell := none
  O : Cell := none
  P : Cell := none
  Q : Cell := none
  R : Cell := none
  S : Cell := none
  T : Cell := none
  U : Cell := none
  V : Cell := none
  W : Cell := none
  X : Cell := none
  Y : Cell := none
  Z : Cell := none
  AA : Cell := none
  AB : Cell := none
  AC : Cell := none
  AD : Cell := none
  AE : Cell := none
  AF : Cell := none
  AG : Cell := none
  AH : Cell := none
  AI : Cell := none
  AJ : Cell := none
  AK : Cell := none
  AL : Cell := none
  AM : Cell := none
  AN : Cell := none
  AO : Cell := none
  AP : Cell := none
  AQ : Cell := none
  AR : Cell := none

/-- The all-absent row (the empty headers object `{}`). -/
def emptyRow : Row := {}

/-- Modelled from the spec: `formatDate` (in `utils/formatters`, not under
`src/`) renders a date as a display string at day precision; the cell model
carries the rendered day number directly (`CellVal.dateStr`). -/
def formatDate (t : ℤ) : CellVal := .dateStr (dayOf t)

/-- Modelled from the spec: `parseExcelDate` (in `utils/formatters`, not
under `src/`) accepts an already-formatted date display string (inverse of
`formatDate`, at day precision) or a spreadsheet serial number (1900 date
system with the historical leap-year-bug offset: serial 25569 is the
epoch); anything unparsable yields `null`.  Plain text cells are not
recognized date strings in this model. -/
def parseExcelDate : Cell → Option ℤ
  | some (.dateStr d) => some (msPerDay * d)
  | some (.num serial) => some (Int.fdiv ((serial.num - 25569 * serial.den) * msPerDay) serial.den)
  | _ => none

-- ---------------------------------------------------------------------------
-- exportOrdersToExcel (dataService.ts lines 690-777)
-- ---------------------------------------------------------------------------

/-- The data row written for one order by `exportOrdersToExcel`
(lines 693-745): positional cells A..AR, dates as display strings,
booleans as 1/0, the three sector mappings JSON-stringified. -/
def excelRow (o : Order) : Row :=
  { A := some (.str o.id)
    B := some (.str o.docNr)
    C := some (.str o.clientName)
    D := o.issueDate.map formatDate
    E := o.requestedDate.map formatDate
    F := some (.num o.itemNr)
    G := some (.str o.po)
    H := some (.str o.articleCode)
    I := some (.str o.reference)
    J := some (.str o.colorCode)
    K := some (.str o.colorDesc)
    L := some (.str o.size)
    M := some (.str o.family)
    N := some (.str o.sizeDesc)
    O := some (.str o.ean)
    P := some (.num o.qtyRequested)
    Q := o.dataTec.map formatDate
    R := some (.num o.felpoCruQty)
    S := o.felpoCruDate.map formatDate
    T := some (.num o.tinturariaQty)
    U := o.tinturariaDate.map formatDate
    V := some (.num o.confRoupoesQty)
    W := some (.num o.confFelposQty)
    X := o.confDate.map formatDate
    Y := some (.num o.embAcabQty)
    Z := o.armExpDate.map formatDate
    AA := some (.num o.stockCxQty)
    AB := some (.num o.qtyBilled)
    AC := some (.num o.qtyOpen)
    AD := some (.str o.comercial)
    AE := some (.str o.clientCode)
    AF := some (.num (JsNum.ofInt o.priority))
    AG := some (.num (if o.isManual then 1 else 0))
    AH := some (.jsonStr (jsonSer (jsonOrEmpty o.sectorObservations)))
    AI := some (.jsonStr (jsonSer (jsonOrEmpty o.sectorPredictedDates)))
    AJ := some (.jsonStr (jsonSer (jsonOrEmpty o.sectorStopReasons)))
    AK := o.dataEspecial.map formatDate
    AL := o.dataPrinter.map formatDate
    AM := o.dataDebuxo.map formatDate
    AN := o.dataAmostras.map formatDate
    AO := o.dataBordados.map formatDate
    AP := some (.num (if o.isArchived then 1 else 0))
    AQ := o.archivedAt.map formatDate
    AR := o.archivedBy.map CellVal.str }

/-- The friendly-label header row written as row 1 (lines 748-759). -/
def excelHeaderRow : Row :=
  { A := some (.str "ID Interno"), B := some (.str "Nr. Documento")
    C := some (.str "Cliente"), D := some (.str "Data Emissão")
    E := some (.str "Data Entrega"), F := some (.str "Item")
    G := some (.str "PO"), H := some (.str "Artigo")
    I := some (.str "Referência"), J := some (.str "Cód. Cor")
    K := some (.str "Cor"), L := some (.str "Tamanho")
    M := some (.str "Família"), N := some (.str "Desc. Tamanho")
    O := some (.str "EAN"), P := some (.str "Qtd. Pedida")
    Q := some (.str "Data Tecelagem"), R := some (.str "Qtd. Felpo Cru")
    S := some (.str "Data Felpo Cru"), T := some (.str "Qtd. Tinturaria")
    U := some (.str "Data Tinturaria"), V := some (.str "Qtd. Conf. Roupões")
    W := some (.str "Qtd. Conf. Felpos"), X := some (.str "Data Confecção")
    Y := some (.str "Qtd. Embalagem"), Z := some (.str "Data Prev. Armazém")
    AA := some (.str "Qtd. Stock Caixa"), AB := some (.str "Qtd. Faturada")
    AC := some (.str "Qtd. Em Aberto"), AD := some (.str "Comercial")
    AE := some (.str "Cód. Cliente"), AF := some (.str "Prioridade")
    AG := some (.str "Conf. Manual"), AH := some (.str "Obs Setores")
    AI := some (.str "Datas Previstas"), AJ := some (.str "Motivos Paragem")
    AK := some (.str "Data Especial"), AL := some (.str "Data Printer")
    AM := some (.str "Data Debuxo"), AN := some (.str "Data Amostras")
    AO := some (.str "Data Bordados"), AP := some (.str "Arquivado")
    AQ := some (.str "Data Arquivado"), AR := some (.str "Arquivado Por") }

/-- `exportOrdersToExcel` (lines 690-777): the `Dados_BD` worksheet content,
as the list of its rows (friendly-label header row first).  The `headers`
argument of the source function is not written to the sheet. -/
def exportOrdersToExcel (orders : List Order) : List Row :=
  excelHeaderRow :: orders.map excelRow

-- ---------------------------------------------------------------------------
-- parseExcelFile (dataService.ts lines 414-510)
-- ---------------------------------------------------------------------------

/-- JS `haystack.includes(needle)` on character lists. -/
def containsSeq (needle : List Char) : List Char → Bool
  | [] => needle.isEmpty
  | c :: rest => needle.isPrefixOf (c :: rest) || containsSeq needle rest

/-- Row-skip predicate (line 436): column B absent/falsy, or its text,
lowercased, containing "doc" (defensive re-header detection). -/
def rowSkip (r : Row) : Bool :=
  !(cellTruthy r.B) || containsSeq "doc".toList ((jsStringOfCell r.B).toList.map Char.toLower)

/-- `JSON.parse` applied to a cell's text: a serialized-JSON cell yields its
value, a numeric cell yields that number (JS coerces the argument to its
text), any other text raises a syntax error (plain text cells model
non-JSON text; a date display string is not valid JSON either). -/
def jsonParseCell : CellVal → Except String Json
  | .jsonStr j => .ok j
  | .num q => .ok (.num q)
  | .str _ => .error "Erro ao processar ficheiro Excel."
  | .dateStr _ => .error "Erro ao processar ficheiro Excel."

/-- `row[X] ? JSON.parse(row[X]) : {}` — absent/falsy cells yield the empty
mapping without parsing; truthy cells are parsed and may raise. -/
def jsonCellOrEmpty (c : Cell) : Except String Json :=
  match c with
  | some v => if cellTruthy (some v) then jsonParseCell v else .ok (.obj [])
  | none => .ok (.obj [])

/-- Whether an `Except` is an error. -/
def isJsonErr (e : Except String Json) : Bool :=
  match e with
  | .error _ => true
  | .ok _ => false

/-- Whether any of the three JSON cells of a row raises on parse
(which aborts the whole import through the surrounding catch). -/
def rowJsonErr (r : Row) : Bool :=
  isJsonErr (jsonCellOrEmpty r.AH) || isJsonErr (jsonCellOrEmpty r.AI) ||
    isJsonErr (jsonCellOrEmpty r.AJ)

/-- The parsed JSON value of a cell, where the error case is unreachable
under the `rowJsonErr` guard. -/
def jsonCellValue (c : Cell) : Json :=
  match jsonCellOrEmpty c with
  | .ok j => j
  | .error _ => .obj []

/-- `String(cell || '').trim()`. -/
def strOrEmptyTrim (c : Cell) : String :=
  if cellTruthy c then String.mk (trimChars (jsStringOfCell c).toList) else ""

/-- `a || b` on cells. -/
def firstTruthy (a b : Cell) : Cell :=
  if cellTruthy a then a else b

/-- `cell ? parseInt(cell) : 0` support: JS `parseInt` truncates a numeric
argument toward zero and reads the leading integer prefix of a string
(`NaN`, which only arises for non-numeric text, is modelled as 0 and never
exercised by the claims). -/
def jsParseInt (cs : List Char) : Option ℤ :=
  let sgn := splitSign (cs.dropWhile Char.isWhitespace)
  let ds := sgn.2.takeWhile Char.isDigit
  if ds.isEmpty then none else some (sgn.1 * (digitsValNat ds : ℤ))

def parseIntCell : Cell → ℤ
  | some (.num q) => Int.tdiv q.num q.den
  | some (.str s) => (jsParseInt s.toList).getD 0
  | _ => 0

/-- `cell === 1 || cell === '1' || cell === true`. -/
def cellIsOne (c : Cell) : Bool :=
  match c with
  | some (.num q) => jqEqB q 1
  | some (.str s) => s == "1"
  | _ => false

/-- The per-row order mapping of `parseExcelFile` (lines 438-499), assuming
the three JSON cells parse (the guarded entry is `parseExcelRows`).  The
`id` fallback string interpolation of `itemNr` uses the numerator as a
stand-in for JS number formatting (only reachable when column A is falsy). -/
def mkOrderRow (r : Row) : Order :=
  let docNr := strOrEmptyTrim r.B
  let itemNr := parseNumber r.F
  { id := if cellTruthy r.A then jsStringOfCell r.A else docNr ++ "-" ++ toString itemNr.num
    docNr := docNr
    clientCode := strOrEmptyTrim (firstTruthy r.AE r.C)
    clientName := strOrEmptyTrim r.C
    comercial := strOrEmptyTrim (firstTruthy r.AD r.L)
    issueDate := parseExcelDate r.D
    requestedDate := parseExcelDate r.E
    itemNr := itemNr
    po := strOrEmptyTrim r.G
    articleCode := strOrEmptyTrim r.H
    reference := strOrEmptyTrim r.I
    colorCode := strOrEmptyTrim r.J
    colorDesc := strOrEmptyTrim r.K
    size := strOrEmptyTrim r.L
    family := strOrEmptyTrim r.M
    sizeDesc := strOrEmptyTrim r.N
    ean := strOrEmptyTrim r.O
    qtyRequested := parseNumber r.P
    dataTec := parseExcelDate r.Q
    felpoCruQty := parseNumber r.R
    felpoCruDate := parseExcelDate r.S
    tinturariaQty := parseNumber r.T
    tinturariaDate := parseExcelDate r.U
    confRoupoesQty := parseNumber r.V
    confFelposQty := parseNumber r.W
    confDate := parseExcelDate r.X
    embAcabQty := parseNumber r.Y
    armExpDate := parseExcelDate r.Z
    stockCxQty := parseNumber r.AA
    qtyBilled := parseNumber r.AB
    qtyOpen := parseNumber r.AC
    dataEnt := parseExcelDate r.E
    priority := if cellTruthy r.AF then parseIntCell r.AF else 0
    isManual := cellIsOne r.AG
    sectorObservations := jsonCellValue r.AH
    sectorPredictedDates := hydratePredVals (jsonCellValue r.AI)
    sectorStopReasons := jsonCellValue r.AJ
    dataEspecial := parseExcelDate r.AK
    dataPrinter := parseExcelDate r.AL
    dataDebuxo := parseExcelDate r.AM
    dataAmostras := parseExcelDate r.AN
    dataBordados := parseExcelDate r.AO
    isArchived := cellIsOne r.AP
    archivedAt := parseExcelDate r.AQ
    archivedBy := if cellTruthy r.AR then some (jsStringOfCell r.AR) else none }

/-- The row loop of `parseExcelFile` (lines 432-500): header-like rows are
skipped silently; on a JSON syntax error in any remaining row,
the surrounding catch rejects the import (the importer's single rejection
message). -/
def parseExcelRows : List Row → Except String (List Order)
  | [] => .ok []
  | r :: rest =>
    if rowSkip r then parseExcelRows rest
    else if rowJsonErr r then .error "Erro ao processar ficheiro Excel."
    else do
      let os ← parseExcelRows rest
      .ok (mkOrderRow r :: os)

/-- `parseExcelFile` (lines 414-510) on the selected worksheet, modelled as
the list of its rows: an empty sheet yields no orders and empty headers;
otherwise row 1 is shifted off and returned as the extracted headers. -/
def parseExcelFile (sheet : List Row) : Except String (List Order × Row) :=
  match sheet with
  | [] => .ok ([], emptyRow)
  | hdr :: rest => (parseExcelRows rest).map (fun os => (os, hdr))

-- ---------------------------------------------------------------------------
-- Round-trip support lemmas (spreadsheet path)
-- ---------------------------------------------------------------------------

theorem cellTruthy_str {s : String} (h : s ≠ "") : cellTruthy (some (.str s)) = true := by
  simp [cellTruthy, h]

theorem strOrEmptyTrim_str {s : String} (h : String.mk (trimChars s.toList) = s) :
    strOrEmptyTrim (some (.str s)) = s := by
  unfold strOrEmptyTrim
  by_cases hs : s = ""
  · subst hs
    rfl
  · rw [if_pos (cellTruthy_str hs)]
    exact h

theorem firstTruthy_str_ne {s : String} (h : s ≠ "") (b : Cell) :
    firstTruthy (some (.str s)) b = some (.str s) := by
  unfold firstTruthy
  rw [if_pos (cellTruthy_str h)]

theorem parseExcelDate_fmt (od : Option ℤ) :
    parseExcelDate (od.map formatDate) = truncDayOpt od := by
  cases od <;> rfl

theorem priority_roundtrip (p : ℤ) :
    (if cellTruthy (some (.num (JsNum.ofInt p))) then parseIntCell (some (.num (JsNum.ofInt p))) else 0) = p := by
  by_cases hp : p = 0
  · subst hp
    rfl
  · have ht : cellTruthy (some (.num (JsNum.ofInt p))) = true := by
      show (!((p * 1 : ℤ) == 0 * 1)) = true
      simp [hp]
    rw [if_pos ht]
    show Int.tdiv p 1 = p
    exact Int.tdiv_one p

theorem cellIsOne_bool (b : Bool) :
    cellIsOne (some (.num (if b then 1 else 0))) = b := by
  cases b <;> rfl

theorem archivedBy_roundtrip {ob : Option String} (h : ob ≠ some "") :
    (if cellTruthy (ob.map CellVal.str) then some (jsStringOfCell (ob.map CellVal.str)) else none) = ob := by
  cases ob with
  | none => rfl
  | some s =>
    have hs : s ≠ "" := fun h2 => h (by rw [h2])
    show (if cellTruthy (some (.str s)) = true then some (jsStringOfCell (some (.str s))) else none) = some s
    rw [if_pos (cellTruthy_str hs)]
    rfl

theorem hydrate_serFields (fs : List (String × Json))
    (h : ∀ kv ∈ fs, ∃ t, kv.2 = Json.date t) :
    (jsonSerFields fs).map (fun kv => (kv.1, if jsTruthy kv.2 then jsNewDateVal kv.2 else kv.2)) = fs := by
  induction fs with
  | nil => rfl
  | cons kv rest ih =>
    obtain ⟨k, v⟩ := kv
    obtain ⟨t, ht⟩ := h (k, v) (List.mem_cons_self _ _)
    simp only at ht
    subst ht
    simp only [jsonSerFields, List.map_cons]
    rw [ih (fun kv hkv => h kv (List.mem_cons_of_mem _ hkv))]
    rfl

theorem hydrate_ser {j : Json} (h : isDateObj j = true) :
    hydratePredVals (jsonSer j) = j := by
  cases j with
  | obj fs =>
    have hall : ∀ kv ∈ fs, ∃ t, kv.2 = Json.date t := by
      intro kv hkv
      have h2 := List.all_eq_true.mp h kv hkv
      cases hv : kv.2 <;> rw [hv] at h2 <;> first
        | exact ⟨_, rfl⟩
        | simp at h2
    show Json.obj ((jsonSerFields fs).map (fun kv => (kv.1, if jsTruthy kv.2 then jsNewDateVal kv.2 else kv.2))) = Json.obj fs
    rw [hydrate_serFields fs hall]
  | null => simp [isDateObj] at h
  | bool b => simp [isDateObj] at h
  | num q => simp [isDateObj] at h
  | str s => simp [isDateObj] at h
  | dstr t => simp [isDateObj] at h
  | date t => simp [isDateObj] at h

theorem jsonOrEmpty_truthy {j : Json} (h : jsTruthy j = true) : jsonOrEmpty j = j := by
  unfold jsonOrEmpty
  rw [if_pos h]

theorem jsonOrEmpty_dateObj {j : Json} (h : isDateObj j = true) : jsonOrEmpty j = j := by
  cases j with
  | obj fs => rfl
  | null => simp [isDateObj] at h
  | bool b => simp [isDateObj] at h
  | num q => simp [isDateObj] at h
  | str s => simp [isDateObj] at h
  | dstr t => simp [isDateObj] at h
  | date t => simp [isDateObj] at h

/-- An order in canonical imported form: the text fields the spreadsheet
importer trims are already trimmed, the fields whose falsiness would
trigger importer fallbacks are non-empty, the document number is not
header-like, and the sector mappings have the canonical in-memory shape
(no `Date` object hides inside the two text mappings; every
predicted-dates value is a `Date`).  Orders produced by the importer
itself have this form. -/
structure CanonicalOrder (o : Order) : Prop where
  id_ne : o.id ≠ ""
  doc_ne : o.docNr ≠ ""
  doc_trim : String.mk (trimChars o.docNr.toList) = o.docNr
  doc_nodoc : containsSeq "doc".toList (o.docNr.toList.map Char.toLower) = false
  ccode_ne : o.clientCode ≠ ""
  ccode_trim : String.mk (trimChars o.clientCode.toList) = o.clientCode
  cname_trim : String.mk (trimChars o.clientName.toList) = o.clientName
  com_ne : o.comercial ≠ ""
  com_trim : String.mk (trimChars o.comercial.toList) = o.comercial
  po_trim : String.mk (trimChars o.po.toList) = o.po
  article_trim : String.mk (trimChars o.articleCode.toList) = o.articleCode
  ref_trim : String.mk (trimChars o.reference.toList) = o.reference
  colorCode_trim : String.mk (trimChars o.colorCode.toList) = o.colorCode
  colorDesc_trim : String.mk (trimChars o.colorDesc.toList) = o.colorDesc
  size_trim : String.mk (trimChars o.size.toList) = o.size
  family_trim : String.mk (trimChars o.family.toList) = o.family
  sizeDesc_trim : String.mk (trimChars o.sizeDesc.toList) = o.sizeDesc
  ean_trim : String.mk (trimChars o.ean.toList) = o.ean
  archivedBy_ne : o.archivedBy ≠ some ""
  obs_truthy : jsTruthy o.sectorObservations = true
  obs_ser : jsonSer o.sectorObservations = o.sectorObservations
  stop_truthy : jsTruthy o.sectorStopReasons = true
  stop_ser : jsonSer o.sectorStopReasons = o.sectorStopReasons
  pred_dates : isDateObj o.sectorPredictedDates = true

/-- What one spreadsheet round trip does to a canonical order: every date
field is truncated to the formatter's day precision, and `dataEnt` is
re-read from column E, i.e. it becomes the truncated `requestedDate`. -/
def excelReimport (o : Order) : Order :=
  { o with
    issueDate := truncDayOpt o.issueDate
    requestedDate := truncDayOpt o.requestedDate
    dataEnt := truncDayOpt o.requestedDate
    dataTec := truncDayOpt o.dataTec
    felpoCruDate := truncDayOpt o.felpoCruDate
    tinturariaDate := truncDayOpt o.tinturariaDate
    confDate := truncDayOpt o.confDate
    armExpDate := truncDayOpt o.armExpDate
    dataEspecial := truncDayOpt o.dataEspecial
    dataPrinter := truncDayOpt o.dataPrinter
    dataDebuxo := truncDayOpt o.dataDebuxo
    dataAmostras := truncDayOpt o.dataAmostras
    dataBordados := truncDayOpt o.dataBordados
    archivedAt := truncDayOpt o.archivedAt }

theorem rowSkip_excelRow {o : Order} (hne : o.docNr ≠ "")
    (hdoc : containsSeq "doc".toList (o.docNr.toList.map Char.toLower) = false) :
    rowSkip (excelRow o) = false := by
  have hB : cellTruthy (some (.str o.docNr)) = true := cellTruthy_str hne
  show (!(cellTruthy (some (.str o.docNr))) ||
      containsSeq "doc".toList ((jsStringOfCell (some (.str o.docNr))).toList.map Char.toLower)) = false
  rw [hB]
  show (false || containsSeq "doc".toList (o.docNr.toList.map Char.toLower)) = false
  rw [Bool.false_or]
  exact hdoc

theorem mkOrderRow_excelRow {o : Order} (hc : CanonicalOrder o) :
    mkOrderRow (excelRow o) = excelReimport o := by
  simp only [mkOrderRow, excelRow, excelReimport]
  rw [jsonOrEmpty_truthy hc.obs_truthy, jsonOrEmpty_truthy hc.stop_truthy,
    jsonOrEmpty_dateObj hc.pred_dates]
  rw [strOrEmptyTrim_str hc.doc_trim]
  rw [firstTruthy_str_ne hc.ccode_ne, firstTruthy_str_ne hc.com_ne]
  rw [strOrEmptyTrim_str hc.ccode_trim, strOrEmptyTrim_str hc.cname_trim,
    strOrEmptyTrim_str hc.com_trim, strOrEmptyTrim_str hc.po_trim,
    strOrEmptyTrim_str hc.article_trim, strOrEmptyTrim_str hc.ref_trim,
    strOrEmptyTrim_str hc.colorCode_trim, strOrEmptyTrim_str hc.colorDesc_trim,
    strOrEmptyTrim_str hc.size_trim, strOrEmptyTrim_str hc.family_trim,
    strOrEmptyTrim_str hc.sizeDesc_trim, strOrEmptyTrim_str hc.ean_trim]
  rw [if_pos (cellTruthy_str hc.id_ne)]
  rw [parseExcelDate_fmt o.issueDate, parseExcelDate_fmt o.requestedDate,
    parseExcelDate_fmt o.dataTec, parseExcelDate_fmt o.felpoCruDate,
    parseExcelDate_fmt o.tinturariaDate, parseExcelDate_fmt o.confDate,
    parseExcelDate_fmt o.armExpDate, parseExcelDate_fmt o.dataEspecial,
    parseExcelDate_fmt o.dataPrinter, parseExcelDate_fmt o.dataDebuxo,
    parseExcelDate_fmt o.dataAmostras, parseExcelDate_fmt o.dataBordados,
    parseExcelDate_fmt o.archivedAt]
  rw [priority_roundtrip o.priority, cellIsOne_bool o.isManual, cellIsOne_bool o.isArchived]
  rw [archivedBy_roundtrip hc.archivedBy_ne]
  show Order.mk _ _ _ _ _ _ _ _ _ _ _ _ _ _ _ _ _ _ _ _ _ _ _ _ _ _ _ _ _ _ _ _
      (jsonCellValue (some (.jsonStr (jsonSer o.sectorObservations))))
      (hydratePredVals (jsonCellValue (some (.jsonStr (jsonSer o.sectorPredictedDates)))))
      (jsonCellValue (some (.jsonStr (jsonSer o.sectorStopReasons)))) _ _ _ _ _ _ _ _ _ _ = _
  show Order.mk _ _ _ _ _ _ _ _ _ _ _ _ _ _ _ _ _ _ _ _ _ _ _ _ _ _ _ _ _ _ _ _
      (jsonSer o.sectorObservations)
      (hydratePredVals (jsonSer o.sectorPredictedDates))
      (jsonSer o.sectorStopReasons) _ _ _ _ _ _ _ _ _ _ = _
  rw [hc.obs_ser, hc.stop_ser, hydrate_ser hc.pred_dates]
  rfl

theorem parseExcelRows_export {orders : List Order} (hc : ∀ o ∈ orders, CanonicalOrder o) :
    parseExcelRows (orders.map excelRow) = .ok (orders.map excelReimport) := by
  induction orders with
  | nil => rfl
  | cons o rest ih =>
    have hco := hc o (List.mem_cons_self _ _)
    have hskip : rowSkip (excelRow o) = false := rowSkip_excelRow hco.doc_ne hco.doc_nodoc
    have hrest := ih (fun x hx => hc x (List.mem_cons_of_mem _ hx))
    simp only [List.map_cons, parseExcelRows, hskip, Bool.false_eq_true, if_false]
    rw [if_neg (by rw [show rowJsonErr (excelRow o) = false from rfl]; exact Bool.false_ne_true)]
    rw [hrest]
    show Except.ok (mkOrderRow (excelRow o) :: rest.map excelReimport) = _
    rw [mkOrderRow_excelRow hco]

-- ---------------------------------------------------------------------------
-- C1
-- ---------------------------------------------------------------------------

/-- C1 (amended): for every non-empty list of orders in canonical imported
form, exporting with `exportOrdersToExcel` and importing the sheet with
`parseExcelFile` succeeds and yields orders equal to the originals on every
field of the A–AR contract up to day-truncation of each date — except
`dataEnt`, which is re-read from column E and therefore comes back as the
truncated `requestedDate` (the original `dataEnt` value is lost). -/
theorem excel_roundtrip (orders : List Order) (hne : orders ≠ [])
    (hc : ∀ o ∈ orders, CanonicalOrder o) :
    parseExcelFile (exportOrdersToExcel orders) =
      .ok (orders.map excelReimport, excelHeaderRow) := by
  have _ := hne
  show (parseExcelRows (orders.map excelRow)).map (fun os => (os, excelHeaderRow)) = _
  rw [parseExcelRows_export hc]
  rfl

/-- C1 counterexample order: `dataEnt` set (already at day precision),
`requestedDate` absent; otherwise canonical. -/
def cexC1 : Order := { sampleOrder with dataEnt := some 86400000 }

/-- C1 is false as stated: the spreadsheet round trip of this single
non-empty canonical order list returns `dataEnt = none`, not the original
`some 86400000` (which day-truncation would have preserved), because
column E is written from `requestedDate` and read back into both
`requestedDate` and `dataEnt`. -/
theorem excel_roundtrip_cex :
    parseExcelFile (exportOrdersToExcel [cexC1]) =
      .ok ([{ cexC1 with dataEnt := none }], excelHeaderRow) ∧
    cexC1.dataEnt = some 86400000 ∧
    truncDayOpt cexC1.dataEnt = some 86400000 ∧
    ({ cexC1 with dataEnt := none } : Order).dataEnt ≠ truncDayOpt cexC1.dataEnt :=
  ⟨rfl, rfl, rfl, by decide⟩

/-- A canonical order exercising every interesting field for the round-trip
witness. -/
def wC1 : Order :=
  { sampleOrder with
      requestedDate := some 172800000, dataEnt := some 172800000,
      issueDate := some 86400123, archivedBy := some "ana",
      sectorObservations := .obj [("tecelagem", .str "x")],
      sectorPredictedDates := .obj [("tinturaria", .date 555)],
      sectorStopReasons := .obj [], priority := 2, isManual := true }

theorem excel_roundtrip_witness :
    parseExcelFile (exportOrdersToExcel [wC1]) =
      .ok ([wC1].map excelReimport, excelHeaderRow) :=
  excel_roundtrip [wC1] (by simp) (by
    intro o ho
    rw [List.mem_singleton] at ho
    subst ho
    exact ⟨by decide, by decide, rfl, rfl, by decide, rfl, rfl, by decide, rfl, rfl, rfl,
      rfl, rfl, rfl, rfl, rfl, rfl, rfl, by decide, rfl, rfl, rfl, rfl, rfl⟩)

-- ---------------------------------------------------------------------------
-- C9
-- ---------------------------------------------------------------------------

/-- C9 (amended): in the spreadsheet row loop, every data row whose column B
is empty/absent or whose lowercased column-B text contains "doc" is
silently skipped — it contributes no order and no error; every other row
whose three sector-JSON cells are absent or well-formed produces exactly
one order, in row order.  (A non-skipped row with a malformed JSON cell
instead fails the whole import; see the counterexample.) -/
theorem parseExcelRows_skip (rows : List Row)
    (h : ∀ r ∈ rows, rowSkip r = false → rowJsonErr r = false) :
    parseExcelRows rows =
      .ok (rows.filterMap (fun r => if rowSkip r then none else some (mkOrderRow r))) := by
  induction rows with
  | nil => rfl
  | cons r rest ih =>
    have hrest := ih (fun x hx => h x (List.mem_cons_of_mem _ hx))
    by_cases hs : rowSkip r = true
    · simp [parseExcelRows, hs, hrest]
    · have hs2 : rowSkip r = false := by
        revert hs
        cases rowSkip r <;> simp
      have hj := h r (List.mem_cons_self _ _) hs2
      simp [parseExcelRows, hs2, hj, hrest]
      rfl

/-- A header-like row (column B text contains "doc" after lowercasing). -/
def skipRowC9 : Row := { B := some (.str "Nr. Documento") }

/-- A plain data row with no JSON cells. -/
def goodRowC9 : Row := { B := some (.str "X1"), F := some (.num 1) }

theorem parseExcelRows_skip_witness :
    parseExcelRows [skipRowC9, goodRowC9] =
      .ok ([skipRowC9, goodRowC9].filterMap
        (fun r => if rowSkip r then none else some (mkOrderRow r))) :=
  parseExcelRows_skip [skipRowC9, goodRowC9] (by decide)

/-- A non-skipped row holding malformed JSON in the sector-observations
cell. -/
def badJsonRowC9 : Row := { B := some (.str "X2"), AH := some (.str "untranslatable") }

/-- C9 is false as stated: this data row is not header-like (not skipped),
yet it does not produce exactly one order — its malformed JSON cell fails
the whole import. -/
theorem parseExcelRows_skip_cex :
    rowSkip badJsonRowC9 = false ∧
    parseExcelRows [badJsonRowC9] = .error "Erro ao processar ficheiro Excel." :=
  ⟨rfl, rfl⟩

-- ---------------------------------------------------------------------------
-- Embedded-database (SQLite) model
-- ---------------------------------------------------------------------------

/-- One stored SQLite value.  `jsonText j` models a TEXT cell holding the
JSON serialization of `j` (as produced by `JSON.stringify`); `text` models
any other text. -/
inductive SqlVal where
  | null
  | int (i : ℤ)
  | real (q : JsNum)
  | text (s : String)
  | jsonText (j : Json)

/-- One row of the `orders` table, columns in the schema order of
lines 593-608 (45 columns). -/
structure SqlRow where
  id : SqlVal := .null
  docNr : SqlVal := .null
  clientCode : SqlVal := .null
  clientName : SqlVal := .null
  comercial : SqlVal := .null
  issueDate : SqlVal := .null
  requestedDate : SqlVal := .null
  itemNr : SqlVal := .null
  po : SqlVal := .null
  articleCode : SqlVal := .null
  reference : SqlVal := .null
  colorCode : SqlVal := .null
  colorDesc : SqlVal := .null
  size : SqlVal := .null
  family : SqlVal := .null
  sizeDesc : SqlVal := .null
  ean : SqlVal := .null
  qtyRequested : SqlVal := .null
  dataTec : SqlVal := .null
  felpoCruQty : SqlVal := .null
  felpoCruDate : SqlVal := .null
  tinturariaQty : SqlVal := .null
  tinturariaDate : SqlVal := .null
  confRoupoesQty : SqlVal := .null
  confFelposQty : SqlVal := .null
  confDate : SqlVal := .null
  embAcabQty : SqlVal := .null
  armExpDate : SqlVal := .null
  stockCxQty : SqlVal := .null
  dataEnt : SqlVal := .null
  qtyBilled : SqlVal := .null
  qtyOpen : SqlVal := .null
  sectorObservations : SqlVal := .null
  sectorPredictedDates : SqlVal := .null
  priority : SqlVal := .null
  isManual : SqlVal := .null
  sectorStopReasons : SqlVal := .null
  dataEspecial : SqlVal := .null
  dataPrinter : SqlVal := .null
  dataDebuxo : SqlVal := .null
  dataAmostras : SqlVal := .null
  dataBordados : SqlVal := .null
  isArchived : SqlVal := .null
  archivedAt : SqlVal := .null
  archivedBy : SqlVal := .null

/-- The exported database content: the `headers` table rows and the
`orders` table rows, in insertion order. -/
structure SqlDb where
  headers : List (String × String)
  orders : List SqlRow

/-- `o.archivedBy || null` as stored on export. -/
def sqlArchivedByOf : Option String → SqlVal
  | some s => if s = "" then .null else .text s
  | none => .null

/-- `date ? date.getTime() : null` on a nullable date. -/
def sqlDateOf : Option ℤ → SqlVal
  | some t => .int t
  | none => .null

/-- The 45-value tuple inserted for one order by `exportOrdersToSQLite`
(lines 621-648): dates as integer milliseconds or NULL, numbers as given,
booleans as 0/1, sector mappings JSON-stringified, `priority || 0` and
`archivedBy || null`. -/
def sqlRowOf (o : Order) : SqlRow :=
  { id := .text o.id
    docNr := .text o.docNr
    clientCode := .text o.clientCode
    clientName := .text o.clientName
    comercial := .text o.comercial
    issueDate := sqlDateOf o.issueDate
    requestedDate := sqlDateOf o.requestedDate
    itemNr := .real o.itemNr
    po := .text o.po
    articleCode := .text o.articleCode
    reference := .text o.reference
    colorCode := .text o.colorCode
    colorDesc := .text o.colorDesc
    size := .text o.size
    family := .text o.family
    sizeDesc := .text o.sizeDesc
    ean := .text o.ean
    qtyRequested := .real o.qtyRequested
    dataTec := sqlDateOf o.dataTec
    felpoCruQty := .real o.felpoCruQty
    felpoCruDate := sqlDateOf o.felpoCruDate
    tinturariaQty := .real o.tinturariaQty
    tinturariaDate := sqlDateOf o.tinturariaDate
    confRoupoesQty := .real o.confRoupoesQty
    confFelposQty := .real o.confFelposQty
    confDate := sqlDateOf o.confDate
    embAcabQty := .real o.embAcabQty
    armExpDate := sqlDateOf o.armExpDate
    stockCxQty := .real o.stockCxQty
    dataEnt := sqlDateOf o.dataEnt
    qtyBilled := .real o.qtyBilled
    qtyOpen := .real o.qtyOpen
    sectorObservations := .jsonText (jsonSer (jsonOrEmpty o.sectorObservations))
    sectorPredictedDates := .jsonText (jsonSer (jsonOrEmpty o.sectorPredictedDates))
    priority := .int o.priority
    isManual := .int (if o.isManual then 1 else 0)
    sectorStopReasons := .jsonText (jsonSer (jsonOrEmpty o.sectorStopReasons))
    dataEspecial := sqlDateOf o.dataEspecial
    dataPrinter := sqlDateOf o.dataPrinter
    dataDebuxo := sqlDateOf o.dataDebuxo
    dataAmostras := sqlDateOf o.dataAmostras
    dataBordados := sqlDateOf o.dataBordados
    isArchived := .int (if o.isArchived then 1 else 0)
    archivedAt := sqlDateOf o.archivedAt
    archivedBy := sqlArchivedByOf o.archivedBy }

/-- `exportOrdersToSQLite` (lines 586-687): creates the `headers` and
`orders` tables and inserts all rows inside one transaction.  File naming,
directory-handle writing and the download fallback are I/O outside the
data model. -/
def exportOrdersToSQLite (orders : List Order) (headers : List (String × String)) : SqlDb :=
  { headers := headers, orders := orders.map sqlRowOf }

/-- A JS value as it sits in a field of an order object built by
`parseSQLiteFile` (plain column values, selectively converted). -/
inductive JsVal where
  | nullV
  | num (q : JsNum)
  | str (s : String)
  | dateV (t : ℤ)
  | json (j : Json)

/-- The order objects produced by `parseSQLiteFile`: raw column values with
the date, JSON, priority, comercial and boolean conversions of
lines 544-572 applied. -/
structure ImportedOrder where
  id : JsVal
  docNr : JsVal
  clientCode : JsVal
  clientName : JsVal
  comercial : JsVal
  issueDate : JsVal
  requestedDate : JsVal
  itemNr : JsVal
  po : JsVal
  articleCode : JsVal
  reference : JsVal
  colorCode : JsVal
  colorDesc : JsVal
  size : JsVal
  family : JsVal
  sizeDesc : JsVal
  ean : JsVal
  qtyRequested : JsVal
  dataTec : JsVal
  felpoCruQty : JsVal
  felpoCruDate : JsVal
  tinturariaQty : JsVal
  tinturariaDate : JsVal
  confRoupoesQty : JsVal
  confFelposQty : JsVal
  confDate : JsVal
  embAcabQty : JsVal
  armExpDate : JsVal
  stockCxQty : JsVal
  dataEnt : JsVal
  qtyBilled : JsVal
  qtyOpen : JsVal
  sectorObservations : JsVal
  sectorPredictedDates : JsVal
  sectorStopReasons : JsVal
  priority : JsVal
  isManual : Bool
  isArchived : Bool
  dataEspecial : JsVal
  dataPrinter : JsVal
  dataDebuxo : JsVal
  dataAmostras : JsVal
  dataBordados : JsVal
  archivedAt : JsVal
  archivedBy : JsVal

/-- Raw sql.js column value as seen from JS (numbers for INTEGER/REAL,
strings for TEXT, `null` for NULL; a `jsonText` column arrives as its
serialized text, so it only appears behind `JSON.parse`). -/
def sqlToJs : SqlVal → JsVal
  | .null => .nullV
  | .int i => .num (JsNum.ofInt i)
  | .real q => .num q
  | .text s => .str s
  | .jsonText j => .json j

/-- JS truthiness of a raw column value (serialized JSON text is never
empty, hence truthy). -/
def sqlTruthy : SqlVal → Bool
  | .null => false
  | .int i => !(i == 0)
  | .real q => !(jqEqB q 0)
  | .text s => !(s == "")
  | .jsonText _ => true

/-- `JSON.parse` on a stored column value: serialized JSON yields its value,
numbers parse as themselves, any other text raises (`text` models non-JSON
text; the `null` case sits behind the truthiness guard). -/
def jsonParseSql : SqlVal → Except String Json
  | .jsonText j => .ok j
  | .int i => .ok (.num (JsNum.ofInt i))
  | .real q => .ok (.num q)
  | .text _ => .error "SyntaxError"
  | .null => .error "SyntaxError"

/-- `if (obj[f]) obj[f] = new Date(obj[f])` for a date column.  A stored
integer 0 (the epoch) is falsy and stays a raw number; `new Date` of a
non-numeric string would be an Invalid Date, unexercised and modelled as
`null`. -/
def sqlDateField (v : SqlVal) : JsVal :=
  if sqlTruthy v then
    match v with
    | .int t => .dateV t
    | .real q => .dateV (Int.tdiv q.num q.den)
    | _ => .nullV
  else sqlToJs v

/-- `if (obj.f) { try { obj.f = JSON.parse(obj.f) } catch { obj.f = {} } }`:
malformed JSON is recovered locally as `{}`; a falsy (NULL) column is left
untouched. -/
def sqlJsonField (v : SqlVal) : JsVal :=
  if sqlTruthy v then
    match jsonParseSql v with
    | .ok j => .json j
    | .error _ => .json (.obj [])
  else sqlToJs v

/-- The `sectorPredictedDates` variant (lines 553-562): parse, then convert
every truthy value back to a `Date`; malformed JSON is recovered as `{}`. -/
def sqlPredField (v : SqlVal) : JsVal :=
  if sqlTruthy v then
    match jsonParseSql v with
    | .ok j => .json (hydratePredVals j)
    | .error _ => .json (.obj [])
  else sqlToJs v

/-- `if (!obj.comercial) obj.comercial = ''`. -/
def sqlComercial (v : SqlVal) : JsVal :=
  if sqlTruthy v then sqlToJs v else .str ""

/-- `if (!obj.priority) obj.priority = 0`. -/
def sqlPriority (v : SqlVal) : JsVal :=
  if sqlTruthy v then sqlToJs v else .num 0

/-- `v === 1 || v === true || v === '1'` on a raw column value. -/
def sqlIsOne : SqlVal → Bool
  | .int i => i == 1
  | .real q => jqEqB q 1
  | .text s => s == "1"
  | _ => false

/-- The per-row object construction of `parseSQLiteFile` (lines 541-574). -/
def importSqlRow (r : SqlRow) : ImportedOrder :=
  { id := sqlToJs r.id
    docNr := sqlToJs r.docNr
    clientCode := sqlToJs r.clientCode
    clientName := sqlToJs r.clientName
    comercial := sqlComercial r.comercial
    issueDate := sqlDateField r.issueDate
    requestedDate := sqlDateField r.requestedDate
    itemNr := sqlToJs r.itemNr
    po := sqlToJs r.po
    articleCode := sqlToJs r.articleCode
    reference := sqlToJs r.reference
    colorCode := sqlToJs r.colorCode
    colorDesc := sqlToJs r.colorDesc
    size := sqlToJs r.size
    family := sqlToJs r.family
    sizeDesc := sqlToJs r.sizeDesc
    ean := sqlToJs r.ean
    qtyRequested := sqlToJs r.qtyRequested
    dataTec := sqlDateField r.dataTec
    felpoCruQty := sqlToJs r.felpoCruQty
    felpoCruDate := sqlDateField r.felpoCruDate
    tinturariaQty := sqlToJs r.tinturariaQty
    tinturariaDate := sqlDateField r.tinturariaDate
    confRoupoesQty := sqlToJs r.confRoupoesQty
    confFelposQty := sqlToJs r.confFelposQty
    confDate := sqlDateField r.confDate
    embAcabQty := sqlToJs r.embAcabQty
    armExpDate := sqlDateField r.armExpDate
    stockCxQty := sqlToJs r.stockCxQty
    dataEnt := sqlDateField r.dataEnt
    qtyBilled := sqlToJs r.qtyBilled
    qtyOpen := sqlToJs r.qtyOpen
    sectorObservations := sqlJsonField r.sectorObservations
    sectorPredictedDates := sqlPredField r.sectorPredictedDates
    sectorStopReasons := sqlJsonField r.sectorStopReasons
    priority := sqlPriority r.priority
    isManual := sqlIsOne r.isManual
    isArchived := sqlIsOne r.isArchived
    dataEspecial := sqlDateField r.dataEspecial
    dataPrinter := sqlDateField r.dataPrinter
    dataDebuxo := sqlDateField r.dataDebuxo
    dataAmostras := sqlDateField r.dataAmostras
    dataBordados := sqlDateField r.dataBordados
    archivedAt := sqlDateField r.archivedAt
    archivedBy := sqlToJs r.archivedBy }

/-- JS object property assignment `m[k] = v` on an assoc-list model: an
existing key keeps its position and takes the new value, a new key is
appended. -/
def setKey {α : Type} (m : List (String × α)) (k : String) (v : α) : List (String × α) :=
  if m.any (fun kv => kv.1 == k) then m.map (fun kv => if kv.1 == k then (k, v) else kv)
  else m ++ [(k, v)]

/-- The headers loop of `parseSQLiteFile` (lines 522-530). -/
def importHeaders (rows : List (String × String)) : List (String × String) :=
  rows.foldl (fun m kv => setKey m kv.1 kv.2) []

/-- `parseSQLiteFile` (lines 513-583) on a decoded database: reads the
`headers` table into a mapping and converts every `orders` row.  (File
decode and missing-table failures are I/O outside the data model; the
per-row conversion itself is total.) -/
def parseSQLiteFile (db : SqlDb) : List ImportedOrder × List (String × String) :=
  (db.orders.map importSqlRow, importHeaders db.headers)

/-- A canonical order viewed as the object `parseSQLiteFile` would have to
return for deep equality: strings stay strings, dates become `Date` values,
quantities stay numbers, sector mappings are objects. -/
def jsDateOpt : Option ℤ → JsVal
  | some t => .dateV t
  | none => .nullV

/-- A nullable string field as a JS value. -/
def jsStrOpt : Option String → JsVal
  | some s => .str s
  | none => .nullV

def embedOrder (o : Order) : ImportedOrder :=
  { id := .str o.id
    docNr := .str o.docNr
    clientCode := .str o.clientCode
    clientName := .str o.clientName
    comercial := .str o.comercial
    issueDate := jsDateOpt o.issueDate
    requestedDate := jsDateOpt o.requestedDate
    itemNr := .num o.itemNr
    po := .str o.po
    articleCode := .str o.articleCode
    reference := .str o.reference
    colorCode := .str o.colorCode
    colorDesc := .str o.colorDesc
    size := .str o.size
    family := .str o.family
    sizeDesc := .str o.sizeDesc
    ean := .str o.ean
    qtyRequested := .num o.qtyRequested
    dataTec := jsDateOpt o.dataTec
    felpoCruQty := .num o.felpoCruQty
    felpoCruDate := jsDateOpt o.felpoCruDate
    tinturariaQty := .num o.tinturariaQty
    tinturariaDate := jsDateOpt o.tinturariaDate
    confRoupoesQty := .num o.confRoupoesQty
    confFelposQty := .num o.confFelposQty
    confDate := jsDateOpt o.confDate
    embAcabQty := .num o.embAcabQty
    armExpDate := jsDateOpt o.armExpDate
    stockCxQty := .num o.stockCxQty
    dataEnt := jsDateOpt o.dataEnt
    qtyBilled := .num o.qtyBilled
    qtyOpen := .num o.qtyOpen
    sectorObservations := .json o.sectorObservations
    sectorPredictedDates := .json o.sectorPredictedDates
    sectorStopReasons := .json o.sectorStopReasons
    priority := .num (JsNum.ofInt o.priority)
    isManual := o.isManual
    isArchived := o.isArchived
    dataEspecial := jsDateOpt o.dataEspecial
    dataPrinter := jsDateOpt o.dataPrinter
    dataDebuxo := jsDateOpt o.dataDebuxo
    dataAmostras := jsDateOpt o.dataAmostras
    dataBordados := jsDateOpt o.dataBordados
    archivedAt := jsDateOpt o.archivedAt
    archivedBy := jsStrOpt o.archivedBy }

-- ---------------------------------------------------------------------------
-- Round-trip support lemmas (embedded-database path)
-- ---------------------------------------------------------------------------

theorem sqlDateField_of (od : Option ℤ) (h : od ≠ some 0) :
    sqlDateField (sqlDateOf od) = jsDateOpt od := by
  cases od with
  | none => rfl
  | some t =>
    have ht : t ≠ 0 := fun h0 => h (by rw [h0])
    show sqlDateField (.int t) = .dateV t
    unfold sqlDateField
    rw [if_pos (by simp [sqlTruthy, ht])]

theorem sqlJsonField_ser {j : Json} (h : jsonSer j = j) :
    sqlJsonField (.jsonText (jsonSer j)) = .json j := by
  show JsVal.json (jsonSer j) = .json j
  rw [h]

theorem sqlPredField_dates {j : Json} (h : isDateObj j = true) :
    sqlPredField (.jsonText (jsonSer j)) = .json j := by
  show JsVal.json (hydratePredVals (jsonSer j)) = .json j
  rw [hydrate_ser h]

theorem sqlComercial_text (s : String) : sqlComercial (.text s) = .str s := by
  by_cases hs : s = ""
  · subst hs; rfl
  · unfold sqlComercial
    rw [if_pos (by simp [sqlTruthy, hs])]
    rfl

theorem sqlPriority_int (p : ℤ) : sqlPriority (.int p) = .num (JsNum.ofInt p) := by
  by_cases hp : p = 0
  · subst hp; rfl
  · unfold sqlPriority
    rw [if_pos (by simp [sqlTruthy, hp])]
    rfl

theorem sqlIsOne_bool (b : Bool) : sqlIsOne (.int (if b then 1 else 0)) = b := by
  cases b <;> rfl

theorem sqlArchivedBy_of {ob : Option String} (h : ob ≠ some "") :
    sqlToJs (sqlArchivedByOf ob) = jsStrOpt ob := by
  cases ob with
  | none => rfl
  | some s =>
    have hs : s ≠ "" := fun h2 => h (by rw [h2])
    show sqlToJs (if s = "" then SqlVal.null else SqlVal.text s) = .str s
    rw [if_neg hs]
    rfl

/-- Canonical form for the embedded-database round trip: no date field is
exactly the epoch instant (stored 0 is falsy and skips rehydration),
`archivedBy` is not the empty string (`archivedBy || null` would store
NULL), and the sector mappings have the canonical in-memory shape. -/
structure SqlCanonicalOrder (o : Order) : Prop where
  issueDate_ne : o.issueDate ≠ some 0
  requestedDate_ne : o.requestedDate ≠ some 0
  dataTec_ne : o.dataTec ≠ some 0
  felpoCruDate_ne : o.felpoCruDate ≠ some 0
  tinturariaDate_ne : o.tinturariaDate ≠ some 0
  confDate_ne : o.confDate ≠ some 0
  armExpDate_ne : o.armExpDate ≠ some 0
  dataEnt_ne : o.dataEnt ≠ some 0
  dataEspecial_ne : o.dataEspecial ≠ some 0
  dataPrinter_ne : o.dataPrinter ≠ some 0
  dataDebuxo_ne : o.dataDebuxo ≠ some 0
  dataAmostras_ne : o.dataAmostras ≠ some 0
  dataBordados_ne : o.dataBordados ≠ some 0
  archivedAt_ne : o.archivedAt ≠ some 0
  archivedBy_ne : o.archivedBy ≠ some ""
  obs_truthy : jsTruthy o.sectorObservations = true
  obs_ser : jsonSer o.sectorObservations = o.sectorObservations
  stop_truthy : jsTruthy o.sectorStopReasons = true
  stop_ser : jsonSer o.sectorStopReasons = o.sectorStopReasons
  pred_dates : isDateObj o.sectorPredictedDates = true

theorem importSqlRow_export {o : Order} (hc : SqlCanonicalOrder o) :
    importSqlRow (sqlRowOf o) = embedOrder o := by
  simp only [importSqlRow, sqlRowOf, embedOrder]
  rw [jsonOrEmpty_truthy hc.obs_truthy, jsonOrEmpty_truthy hc.stop_truthy,
    jsonOrEmpty_dateObj hc.pred_dates]
  rw [sqlDateField_of o.issueDate hc.issueDate_ne,
    sqlDateField_of o.requestedDate hc.requestedDate_ne,
    sqlDateField_of o.dataTec hc.dataTec_ne,
    sqlDateField_of o.felpoCruDate hc.felpoCruDate_ne,
    sqlDateField_of o.tinturariaDate hc.tinturariaDate_ne,
    sqlDateField_of o.confDate hc.confDate_ne,
    sqlDateField_of o.armExpDate hc.armExpDate_ne,
    sqlDateField_of o.dataEnt hc.dataEnt_ne,
    sqlDateField_of o.dataEspecial hc.dataEspecial_ne,
    sqlDateField_of o.dataPrinter hc.dataPrinter_ne,
    sqlDateField_of o.dataDebuxo hc.dataDebuxo_ne,
    sqlDateField_of o.dataAmostras hc.dataAmostras_ne,
    sqlDateField_of o.dataBordados hc.dataBordados_ne,
    sqlDateField_of o.archivedAt hc.archivedAt_ne]
  rw [sqlJsonField_ser hc.obs_ser, sqlJsonField_ser hc.stop_ser,
    sqlPredField_dates hc.pred_dates]
  rw [sqlComercial_text o.comercial, sqlPriority_int o.priority,
    sqlIsOne_bool o.isManual, sqlIsOne_bool o.isArchived,
    sqlArchivedBy_of hc.archivedBy_ne]
  rfl

theorem foldl_setKey (rows : List (String × String)) :
    ∀ acc : List (String × String),
      (∀ kv ∈ rows, acc.any (fun e => e.1 == kv.1) = false) →
      (rows.map Prod.fst).Nodup →
      rows.foldl (fun m kv => setKey m kv.1 kv.2) acc = acc ++ rows := by
  induction rows with
  | nil => intro acc _ _; simp
  | cons kv rest ih =>
    intro acc hdisj hnodup
    obtain ⟨k, v⟩ := kv
    have hset : setKey acc k v = acc ++ [(k, v)] := by
      unfold setKey
      rw [if_neg (by simp [hdisj (k, v) (List.mem_cons_self _ _)])]
    rw [List.foldl_cons]
    show List.foldl (fun m kv => setKey m kv.1 kv.2) (setKey acc k v) rest = acc ++ (k, v) :: rest
    rw [hset]
    rw [List.map_cons, List.nodup_cons] at hnodup
    rw [ih (acc ++ [(k, v)]) ?_ hnodup.2]
    · simp
    · intro e he
      rw [List.any_append]
      have h1 : acc.any (fun x => x.1 == e.1) = false := hdisj e (List.mem_cons_of_mem _ he)
      have h2 : ([((k : String), (v : String))].any (fun x => x.1 == e.1)) = false := by
        simp only [List.any_cons, List.any_nil, Bool.or_false]
        have hm : e.1 ∈ rest.map Prod.fst := List.mem_map_of_mem Prod.fst he
        have hk : k ≠ e.1 := fun hk => hnodup.1 (hk ▸ hm)
        simp [hk]
      rw [h1, h2]
      rfl
  
theorem importHeaders_nodup {rows : List (String × String)}
    (h : (rows.map Prod.fst).Nodup) : importHeaders rows = rows := by
  have h2 := foldl_setKey rows [] (by simp) h
  simpa [importHeaders] using h2

-- ---------------------------------------------------------------------------
-- C3
-- ---------------------------------------------------------------------------

/-- C3 (amended): for every list of orders in canonical embedded-database
form (no date exactly at the epoch instant, `archivedBy` not the empty
string, canonical sector mappings) and every headers mapping with distinct
keys, exporting with `exportOrdersToSQLite` and importing with
`parseSQLiteFile` yields objects deep-equal to the originals on all 45
columns — dates rehydrated as date values, predicted-dates values as date
values inside the mapping — and the headers mapping unchanged. -/
theorem sqlite_roundtrip (orders : List Order) (headers : List (String × String))
    (hc : ∀ o ∈ orders, SqlCanonicalOrder o)
    (hh : (headers.map Prod.fst).Nodup) :
    parseSQLiteFile (exportOrdersToSQLite orders headers) =
      (orders.map embedOrder, headers) := by
  show (((orders.map sqlRowOf).map importSqlRow : List ImportedOrder), importHeaders headers) = _
  rw [importHeaders_nodup hh, List.map_map]
  have hmap : orders.map (importSqlRow ∘ sqlRowOf) = orders.map embedOrder :=
    List.map_congr_left (fun o ho => importSqlRow_export (hc o ho))
  rw [hmap]

/-- C3 counterexample order: `issueDate` exactly at the epoch (stored
timestamp 0). -/
def cexC3 : Order := { sampleOrder with issueDate := some 0 }

/-- C3 is false as stated: the `if (obj[field])` rehydration check treats a
stored 0 as absent, so the re-imported `issueDate` is the raw number 0,
not a date value — the reimported object is not deep-equal to the original
with its dates rehydrated. -/
theorem sqlite_roundtrip_cex :
    (parseSQLiteFile (exportOrdersToSQLite [cexC3] [])).1 =
      [{ embedOrder cexC3 with issueDate := JsVal.num 0 }] ∧
    (embedOrder cexC3).issueDate = JsVal.dateV 0 ∧
    JsVal.num 0 ≠ JsVal.dateV 0 :=
  ⟨rfl, rfl, fun h => JsVal.noConfusion h⟩

theorem sqlite_roundtrip_witness :
    parseSQLiteFile (exportOrdersToSQLite [wC1] [("k1", "v1"), ("k2", "v2")]) =
      ([wC1].map embedOrder, [("k1", "v1"), ("k2", "v2")]) :=
  sqlite_roundtrip [wC1] [("k1", "v1"), ("k2", "v2")]
    (by
      intro o ho
      rw [List.mem_singleton] at ho
      subst ho
      exact ⟨by decide, by decide, by decide, by decide, by decide, by decide, by decide,
        by decide, by decide, by decide, by decide, by decide, by decide, by decide,
        by decide, rfl, rfl, rfl, rfl, rfl⟩)
    (by decide)

-- ---------------------------------------------------------------------------
-- C2
-- ---------------------------------------------------------------------------

/-- C2 (amended): in the embedded-database path, malformed (non-JSON) text
in any of the three sector-mapping columns is recovered locally as an empty
mapping and the row import still succeeds (the row conversion is total); a
NULL sector-mapping column is left null rather than replaced.  In the
spreadsheet path, only an absent cell yields an empty mapping — the row
then parses without error; malformed JSON there fails the whole import
(see the counterexample). -/
theorem sector_mapping_tolerance :
    (∀ (r : SqlRow) (s1 s2 s3 : String),
      r.sectorObservations = .text s1 → r.sectorPredictedDates = .text s2 →
      r.sectorStopReasons = .text s3 → s1 ≠ "" → s2 ≠ "" → s3 ≠ "" →
      (importSqlRow r).sectorObservations = .json (.obj []) ∧
      (importSqlRow r).sectorPredictedDates = .json (.obj []) ∧
      (importSqlRow r).sectorStopReasons = .json (.obj [])) ∧
    (∀ r : SqlRow, r.sectorObservations = .null →
      (importSqlRow r).sectorObservations = .nullV) ∧
    (∀ r : Row, r.AH = none → r.AI = none → r.AJ = none →
      rowJsonErr r = false ∧
      (mkOrderRow r).sectorObservations = .obj [] ∧
      (mkOrderRow r).sectorPredictedDates = .obj [] ∧
      (mkOrderRow r).sectorStopReasons = .obj []) := by
  refine ⟨?_, ?_, ?_⟩
  · intro r s1 s2 s3 h1 h2 h3 hs1 hs2 hs3
    refine ⟨?_, ?_, ?_⟩
    · show sqlJsonField r.sectorObservations = _
      rw [h1]
      unfold sqlJsonField
      rw [if_pos (by simp [sqlTruthy, hs1])]
      rfl
    · show sqlPredField r.sectorPredictedDates = _
      rw [h2]
      unfold sqlPredField
      rw [if_pos (by simp [sqlTruthy, hs2])]
      rfl
    · show sqlJsonField r.sectorStopReasons = _
      rw [h3]
      unfold sqlJsonField
      rw [if_pos (by simp [sqlTruthy, hs3])]
      rfl
  · intro r h
    show sqlJsonField r.sectorObservations = _
    rw [h]
    rfl
  · intro r h1 h2 h3
    refine ⟨?_, ?_, ?_, ?_⟩
    · show (isJsonErr (jsonCellOrEmpty r.AH) || isJsonErr (jsonCellOrEmpty r.AI) ||
        isJsonErr (jsonCellOrEmpty r.AJ)) = false
      rw [h1, h2, h3]
      rfl
    · show jsonCellValue r.AH = _
      rw [h1]
      rfl
    · show hydratePredVals (jsonCellValue r.AI) = _
      rw [h2]
      rfl
    · show jsonCellValue r.AJ = _
      rw [h3]
      rfl

/-- A database row whose three sector-mapping columns hold malformed text. -/
def sqlBadRowC2 : SqlRow :=
  { sectorObservations := .text "nope", sectorPredictedDates := .text "nope",
    sectorStopReasons := .text "nope" }

/-- A spreadsheet row with no sector-mapping cells at all. -/
def plainRowC2 : Row := { B := some (.str "Y0") }

theorem sector_mapping_tolerance_witness :
    (importSqlRow sqlBadRowC2).sectorObservations = .json (.obj []) ∧
    (mkOrderRow plainRowC2).sectorObservations = .obj [] :=
  ⟨(sector_mapping_tolerance.1 sqlBadRowC2 "nope" "nope" "nope" rfl rfl rfl
      (by decide) (by decide) (by decide)).1,
   (sector_mapping_tolerance.2.2 plainRowC2 rfl rfl rfl).2.1⟩

/-- A non-skipped spreadsheet row with malformed JSON in the
predicted-dates cell. -/
def badRowC2 : Row := { B := some (.str "Y1"), AI := some (.str "not json") }

/-- C2 is false as stated: in the spreadsheet path, malformed JSON in a
sector-mapping cell does not become an empty mapping — the whole import
fails (the row is not even header-like). -/
theorem sector_mapping_tolerance_cex :
    rowSkip badRowC2 = false ∧
    parseExcelFile [excelHeaderRow, badRowC2] = .error "Erro ao processar ficheiro Excel." :=
  ⟨rfl, rfl⟩

-- ---------------------------------------------------------------------------
-- Column registry and custom export (dataService.ts lines 780-950)
-- ---------------------------------------------------------------------------

/-- `ExportColumnDef` (lines 780-784). -/
structure ExportColumnDef where
  key : String
  label : String
  group : String
  deriving DecidableEq

/-- `ALL_EXPORT_COLUMNS` (lines 786-858): the static catalog of exportable
columns, in the documented order. -/
def ALL_EXPORT_COLUMNS : List ExportColumnDef := [
  ⟨"docNr", "Nr. Documento", "Identificação"⟩,
  ⟨"itemNr", "Item", "Identificação"⟩,
  ⟨"id", "ID Interno", "Identificação"⟩,
  ⟨"clientName", "Cliente", "Cliente"⟩,
  ⟨"clientCode", "Cód. Cliente", "Cliente"⟩,
  ⟨"comercial", "Comercial", "Cliente"⟩,
  ⟨"po", "PO", "Cliente"⟩,
  ⟨"articleCode", "Artigo", "Artigo"⟩,
  ⟨"reference", "Referência", "Artigo"⟩,
  ⟨"colorCode", "Cód. Cor", "Artigo"⟩,
  ⟨"colorDesc", "Cor", "Artigo"⟩,
  ⟨"size", "Tamanho", "Artigo"⟩,
  ⟨"sizeDesc", "Desc. Tamanho", "Artigo"⟩,
  ⟨"family", "Família", "Artigo"⟩,
  ⟨"ean", "EAN", "Artigo"⟩,
  ⟨"qtyRequested", "Qtd. Pedida", "Quantidades"⟩,
  ⟨"qtyBilled", "Qtd. Faturada", "Quantidades"⟩,
  ⟨"qtyOpen", "Qtd. Em Aberto", "Quantidades"⟩,
  ⟨"felpoCruQty", "Qtd. Felpo Cru", "Quantidades"⟩,
  ⟨"tinturariaQty", "Qtd. Tinturaria", "Quantidades"⟩,
  ⟨"confRoupoesQty", "Qtd. Conf. Roupões", "Quantidades"⟩,
  ⟨"confFelposQty", "Qtd. Conf. Felpos", "Quantidades"⟩,
  ⟨"embAcabQty", "Qtd. Embalagem", "Quantidades"⟩,
  ⟨"stockCxQty", "Qtd. Stock Caixa", "Quantidades"⟩,
  ⟨"issueDate", "Data Emissão", "Datas"⟩,
  ⟨"requestedDate", "Data Entrega Pedida", "Datas"⟩,
  ⟨"dataEnt", "Data Entrada", "Datas"⟩,
  ⟨"dataTec", "Data Tecelagem", "Datas"⟩,
  ⟨"felpoCruDate", "Data Felpo Cru", "Datas"⟩,
  ⟨"tinturariaDate", "Data Tinturaria", "Datas"⟩,
  ⟨"confDate", "Data Confecção", "Datas"⟩,
  ⟨"armExpDate", "Data Prev. Armazém", "Datas"⟩,
  ⟨"dataEspecial", "Data Especial", "Datas Especiais"⟩,
  ⟨"dataPrinter", "Data Printer", "Datas Especiais"⟩,
  ⟨"dataDebuxo", "Data Debuxo", "Datas Especiais"⟩,
  ⟨"dataAmostras", "Data Amostras", "Datas Especiais"⟩,
  ⟨"dataBordados", "Data Bordados", "Datas Especiais"⟩,
  ⟨"estado", "Estado", "Estado / App"⟩,
  ⟨"priority", "Prioridade", "Estado / App"⟩,
  ⟨"isManual", "Conf. Manual", "Estado / App"⟩,
  ⟨"isArchived", "Arquivado", "Estado / App"⟩,
  ⟨"archivedAt", "Arquivado Em", "Estado / App"⟩,
  ⟨"archivedBy", "Arquivado Por", "Estado / App"⟩,
  ⟨"obs_tecelagem", "Obs. Tecelagem", "Observações"⟩,
  ⟨"obs_felpo_cru", "Obs. Felpo Cru", "Observações"⟩,
  ⟨"obs_tinturaria", "Obs. Tinturaria", "Observações"⟩,
  ⟨"obs_confeccao", "Obs. Confecção", "Observações"⟩,
  ⟨"obs_embalagem", "Obs. Embalagem", "Observações"⟩,
  ⟨"obs_expedicao", "Obs. Expedição", "Observações"⟩,
  ⟨"prev_tecelagem", "Prev. Tecelagem", "Datas Previstas"⟩,
  ⟨"prev_felpo_cru", "Prev. Felpo Cru", "Datas Previstas"⟩,
  ⟨"prev_tinturaria", "Prev. Tinturaria", "Datas Previstas"⟩,
  ⟨"prev_confeccao", "Prev. Confecção", "Datas Previstas"⟩,
  ⟨"prev_embalagem", "Prev. Embalagem", "Datas Previstas"⟩,
  ⟨"prev_expedicao", "Prev. Expedição", "Datas Previstas"⟩,
  ⟨"stop_tecelagem", "Motivo Tecelagem", "Motivos de Paragem"⟩,
  ⟨"stop_felpo_cru", "Motivo Felpo Cru", "Motivos de Paragem"⟩,
  ⟨"stop_tinturaria", "Motivo Tinturaria", "Motivos de Paragem"⟩,
  ⟨"stop_confeccao", "Motivo Confecção", "Motivos de Paragem"⟩,
  ⟨"stop_embalagem", "Motivo Embalagem", "Motivos de Paragem"⟩,
  ⟨"stop_expedicao", "Motivo Expedição", "Motivos de Paragem"⟩]

/-- A display value produced by the column-value resolver. -/
inductive ColValue where
  | str (s : String)
  | num (q : JsNum)
  | state (st : OrderState)
  | disp (c : CellVal)
  | json (j : Json)

/-- `order.map?.[sectorId] || ''` for the flattened obs/stop columns. -/
def jsonTextOrEmpty : Option Json → ColValue
  | some v => if jsTruthy v then .json v else .str ""
  | none => .str ""

/-- Modelled from the spec: the shared formatter renders a date value as its
display string; non-date input renders as the empty display. -/
def prevDisp : Option Json → ColValue
  | some (.date t) => .disp (formatDate t)
  | _ => .str ""

/-- `val ?? ''` for a nullable date field with display formatting of truthy
values (`if (dateFields.includes(key) && val) return formatDate(val)`). -/
def dateDispOpt : Option ℤ → ColValue
  | some t => .disp (formatDate t)
  | none => .str ""

/-- The plain-field fallback of `getColumnValue` (lines 911-913):
`order[key]`, date fields formatted, null/undefined as the empty string. -/
def rawFieldValue (order : Order) (key : String) : ColValue :=
  if key = "id" then .str order.id
  else if key = "docNr" then .str order.docNr
  else if key = "clientCode" then .str order.clientCode
  else if key = "clientName" then .str order.clientName
  else if key = "comercial" then .str order.comercial
  else if key = "po" then .str order.po
  else if key = "articleCode" then .str order.articleCode
  else if key = "reference" then .str order.reference
  else if key = "colorCode" then .str order.colorCode
  else if key = "colorDesc" then .str order.colorDesc
  else if key = "size" then .str order.size
  else if key = "family" then .str order.family
  else if key = "sizeDesc" then .str order.sizeDesc
  else if key = "ean" then .str order.ean
  else if key = "itemNr" then .num order.itemNr
  else if key = "qtyRequested" then .num order.qtyRequested
  else if key = "felpoCruQty" then .num order.felpoCruQty
  else if key = "tinturariaQty" then .num order.tinturariaQty
  else if key = "confRoupoesQty" then .num order.confRoupoesQty
  else if key = "confFelposQty" then .num order.confFelposQty
  else if key = "embAcabQty" then .num order.embAcabQty
  else if key = "stockCxQty" then .num order.stockCxQty
  else if key = "qtyBilled" then .num order.qtyBilled
  else if key = "qtyOpen" then .num order.qtyOpen
  else if key = "issueDate" then dateDispOpt order.issueDate
  else if key = "requestedDate" then dateDispOpt order.requestedDate
  else if key = "dataEnt" then dateDispOpt order.dataEnt
  else if key = "dataTec" then dateDispOpt order.dataTec
  else if key = "felpoCruDate" then dateDispOpt order.felpoCruDate
  else if key = "tinturariaDate" then dateDispOpt order.tinturariaDate
  else if key = "confDate" then dateDispOpt order.confDate
  else if key = "armExpDate" then dateDispOpt order.armExpDate
  else if key = "dataEspecial" then dateDispOpt order.dataEspecial
  else if key = "dataPrinter" then dateDispOpt order.dataPrinter
  else if key = "dataDebuxo" then dateDispOpt order.dataDebuxo
  else if key = "dataAmostras" then dateDispOpt order.dataAmostras
  else if key = "dataBordados" then dateDispOpt order.dataBordados
  else if key = "archivedAt" then dateDispOpt order.archivedAt
  else if key = "archivedBy" then
    (match order.archivedBy with
     | some s => .str s
     | none => .str "")
  else if key = "sectorObservations" then .json order.sectorObservations
  else if key = "sectorPredictedDates" then .json order.sectorPredictedDates
  else if key = "sectorStopReasons" then .json order.sectorStopReasons
  else .str ""

/-- `getColumnValue` (lines 888-914), parameterized by the wall clock for
the computed `estado` column.  The `key.replace(prefix_, '')` sector-id
extraction equals dropping the prefix, since it is only reached when the
key starts with that prefix. -/
def getColumnValue (now : ℤ) (order : Order) (key : String) : ColValue :=
  if key = "estado" then .state (getOrderState now order)
  else if key = "priority" then
    .str (if order.priority = 1 then "Alta"
          else if order.priority = 2 then "Média"
          else if order.priority = 3 then "Baixa" else "")
  else if key = "isManual" then .str (if order.isManual then "Sim" else "Não")
  else if key = "isArchived" then .str (if order.isArchived then "Sim" else "Não")
  else if ("obs_".toList).isPrefixOf key.toList then
    jsonTextOrEmpty (jsonGet order.sectorObservations (String.mk (key.toList.drop 4)))
  else if ("prev_".toList).isPrefixOf key.toList then
    prevDisp (jsonGet order.sectorPredictedDates (String.mk (key.toList.drop 5)))
  else if ("stop_".toList).isPrefixOf key.toList then
    jsonTextOrEmpty (jsonGet order.sectorStopReasons (String.mk (key.toList.drop 5)))
  else rawFieldValue order key

/-- `exportCustomColumns` (lines 917-950): a no-op (`none`) when either
list is empty; otherwise resolves the selected keys against the registry,
silently dropping unknown keys, and produces the sheet: one row per order,
each row a JS object built by `row[col.label] = value` assignments over
the resolved columns in the key order given (a repeated label therefore
collapses into a single property).  File naming and the workbook write are
I/O outside the data model. -/
def exportCustomColumns (now : ℤ) (orders : List Order)
    (selectedColumnKeys : List String) : Option (List (List (String × ColValue))) :=
  if orders.length = 0 ∨ selectedColumnKeys.length = 0 then none
  else
    let colDefs := selectedColumnKeys.filterMap
      (fun k => ALL_EXPORT_COLUMNS.find? (fun c => c.key == k))
    some (orders.map (fun o =>
      colDefs.foldl (fun row c => setKey row c.label (getColumnValue now o c.key)) []))

theorem resolveKeys_keys (keys : List String) :
    (keys.filterMap (fun k => ALL_EXPORT_COLUMNS.find? (fun c => c.key == k))).map (·.key)
      = keys.filter (fun k => ALL_EXPORT_COLUMNS.any (fun c => c.key == k)) := by
  induction keys with
  | nil => rfl
  | cons k rest ih =>
    cases hf : ALL_EXPORT_COLUMNS.find? (fun c => c.key == k) with
    | none =>
      have hany : ALL_EXPORT_COLUMNS.any (fun c => c.key == k) = false := by
        rw [List.any_eq_false]
        intro c hc
        have h2 := List.find?_eq_none.mp hf c hc
        simpa using h2
      simp [List.filterMap_cons, hf, List.filter_cons, hany, ih]
    | some c =>
      have hp := List.find?_some hf
      have hkey : c.key = k := by simpa using hp
      have hany : ALL_EXPORT_COLUMNS.any (fun x => x.key == k) = true := by
        rw [List.any_eq_true]
        exact ⟨c, List.mem_of_find?_eq_some hf, by simpa using hp⟩
      simp [List.filterMap_cons, hf, List.filter_cons, hany, ih, hkey]

-- ---------------------------------------------------------------------------
-- C10
-- ---------------------------------------------------------------------------

theorem foldl_setKey_map {α β : Type} (f : β → String) (g : β → α) (l : List β) :
    ∀ acc : List (String × α),
      (∀ b ∈ l, acc.any (fun e => e.1 == f b) = false) →
      (l.map f).Nodup →
      l.foldl (fun m b => setKey m (f b) (g b)) acc = acc ++ l.map (fun b => (f b, g b)) := by
  induction l with
  | nil => intro acc _ _; simp
  | cons b rest ih =>
    intro acc hdisj hnodup
    have hset : setKey acc (f b) (g b) = acc ++ [(f b, g b)] := by
      unfold setKey
      rw [if_neg (by simp [hdisj b (List.mem_cons_self _ _)])]
    rw [List.foldl_cons, hset]
    rw [List.map_cons, List.nodup_cons] at hnodup
    rw [ih (acc ++ [(f b, g b)]) ?_ hnodup.2]
    · simp
    · intro e he
      rw [List.any_append]
      have hA : acc.any (fun x => x.1 == f e) = false := hdisj e (List.mem_cons_of_mem _ he)
      have hB : ([((f b : String), g b)].any (fun x => x.1 == f e)) = false := by
        simp only [List.any_cons, List.any_nil, Bool.or_false]
        have hm : f e ∈ rest.map f := List.mem_map_of_mem f he
        have hk : f b ≠ f e := fun hk => hnodup.1 (hk ▸ hm)
        simp [hk]
      rw [hA, hB]
      rfl

/-- C10 (amended): `exportCustomColumns` silently drops every selected key
that does not occur in `ALL_EXPORT_COLUMNS` — no error, no column for it;
the resolved columns are exactly the recognized keys, in the order given,
each carrying its registry definition; and when both inputs are non-empty
and the selected keys are distinct, the produced sheet has one row per
order of (registry label, resolved value) pairs over exactly those
columns.  (A repeated recognized key collapses into a single column of the
row object; see the counterexample.) -/
theorem exportCustomColumns_spec (now : ℤ) (orders : List Order) (keys : List String) :
    ((keys.filterMap (fun k => ALL_EXPORT_COLUMNS.find? (fun c => c.key == k))).map (·.key)
      = keys.filter (fun k => ALL_EXPORT_COLUMNS.any (fun c => c.key == k))) ∧
    (∀ c ∈ keys.filterMap (fun k => ALL_EXPORT_COLUMNS.find? (fun c => c.key == k)),
      c ∈ ALL_EXPORT_COLUMNS) ∧
    (orders ≠ [] → keys ≠ [] → keys.Nodup →
      exportCustomColumns now orders keys =
        some (orders.map (fun o =>
          (keys.filterMap (fun k => ALL_EXPORT_COLUMNS.find? (fun c => c.key == k))).map
            (fun c => (c.label, getColumnValue now o c.key))))) := by
  have hmem : ∀ c ∈ keys.filterMap (fun k => ALL_EXPORT_COLUMNS.find? (fun c => c.key == k)),
      c ∈ ALL_EXPORT_COLUMNS := by
    intro c hc
    rw [List.mem_filterMap] at hc
    obtain ⟨k, _, hk⟩ := hc
    exact List.mem_of_find?_eq_some hk
  refine ⟨resolveKeys_keys keys, hmem, ?_⟩
  intro h1 h2 h3
  have hkeysnodup :
      ((keys.filterMap (fun k => ALL_EXPORT_COLUMNS.find? (fun c => c.key == k))).map (·.key)).Nodup := by
    rw [resolveKeys_keys]
    exact h3.filter _
  have hcolnodup : (keys.filterMap (fun k => ALL_EXPORT_COLUMNS.find? (fun c => c.key == k))).Nodup :=
    hkeysnodup.of_map
  have hlabreg : (ALL_EXPORT_COLUMNS.map (·.label)).Nodup := by decide
  have hlabnodup :
      ((keys.filterMap (fun k => ALL_EXPORT_COLUMNS.find? (fun c => c.key == k))).map (·.label)).Nodup := by
    refine List.Nodup.map_on ?_ hcolnodup
    intro x hx y hy hxy
    exact List.inj_on_of_nodup_map hlabreg (hmem x hx) (hmem y hy) hxy
  unfold exportCustomColumns
  rw [if_neg (by
    rintro (h | h)
    · exact h1 (List.length_eq_zero.mp h)
    · exact h2 (List.length_eq_zero.mp h))]
  refine congrArg some (List.map_congr_left (fun o _ => ?_))
  have hrow := foldl_setKey_map (fun c : ExportColumnDef => c.label)
    (fun c => getColumnValue now o c.key)
    (keys.filterMap (fun k => ALL_EXPORT_COLUMNS.find? (fun c => c.key == k)))
    [] (by intro b _; rfl) hlabnodup
  simpa using hrow

/-- C10 is false as stated for a repeated selected key: both occurrences of
"docNr" are recognized, yet the produced row object collapses the repeated
label into a single column — the sheet holds one column where the claim's
"exactly the recognized keys, in the order given" requires two. -/
theorem exportCustomColumns_cex :
    exportCustomColumns 0 [sampleOrder] ["docNr", "docNr"] =
      some [[("Nr. Documento", ColValue.str "ENC-1")]] ∧
    (["docNr", "docNr"].filter (fun k => ALL_EXPORT_COLUMNS.any (fun c => c.key == k))).length = 2 :=
  ⟨rfl, rfl⟩

theorem exportCustomColumns_spec_witness :
    exportCustomColumns 0 [sampleOrder] ["docNr", "bogus", "estado"] =
      some ([sampleOrder].map (fun o =>
        ((["docNr", "bogus", "estado"].filterMap
          (fun k => ALL_EXPORT_COLUMNS.find? (fun c => c.key == k))).map
          (fun c => (c.label, getColumnValue 0 o c.key))))) :=
  (exportCustomColumns_spec 0 [sampleOrder] ["docNr", "bogus", "estado"]).2.2
    (by simp) (by simp) (by decide)
